import Mathlib

/-!
vlc-vr: the stereo render loop of `main.cpp` and the helpers of `gl.cpp`.

A shallow embedding of the two source files.

* The graphics calls that `main` issues are values of `Cmd`; `step` gives each
  call its effect on the part of the OpenGL state that `main` itself sets
  (bound framebuffer, viewport, matrices, program, bound texture, the quads
  emitted between `glBegin` and `glEnd`).
* `compile_shader`, `create_fbo`, `init_gl` and the startup of `main` return an
  `Outcome`, which distinguishes returning from leaving the process.
* The event polling of the loop is written over the operations of the
  `UserInterface` and device collaborators, which are taken as parameters.
* `updateTexture` is a small thread program run against a producer under an
  interleaving semantics with one mutex.

Floating point numbers are read as rationals (exact arithmetic).
-/

namespace VlcVr

/-! ## Macros of `main.cpp` -/

/-- The macro `TEST_WIDTH`, defined as 2160. -/
def TEST_WIDTH : Int := 2160

/-- The macro `TEST_HEIGHT`, defined as 1200. -/
def TEST_HEIGHT : Int := 1200

/-- The macro `EYE_WIDTH`, defined as `(TEST_WIDTH / 2 * 2)`: C integer division truncates and
`/` and `*` associate to the left. -/
def EYE_WIDTH : Int := Int.tdiv TEST_WIDTH 2 * 2

/-- The macro `EYE_HEIGHT`, defined as `(TEST_HEIGHT * 2)`. -/
def EYE_HEIGHT : Int := TEST_HEIGHT * 2

/-! ## Graphics commands -/

/-- The capabilities `main` enables and disables. -/
inductive Cap
  | GL_BLEND
  | GL_DEPTH_TEST
  | GL_TEXTURE_2D
  deriving DecidableEq, Repr

/-- The two matrix stacks `main` selects. -/
inductive MatrixMode
  | GL_PROJECTION
  | GL_MODELVIEW
  deriving DecidableEq, Repr

/-- The device values `main` reads with `ohmd_device_getf`. -/
inductive OhmdFloat
  | OHMD_LEFT_EYE_GL_PROJECTION_MATRIX
  | OHMD_LEFT_EYE_GL_MODELVIEW_MATRIX
  | OHMD_RIGHT_EYE_GL_PROJECTION_MATRIX
  | OHMD_RIGHT_EYE_GL_MODELVIEW_MATRIX
  deriving DecidableEq, Repr

/-- A 4x4 matrix, the content of a `float[16]` handed to `glLoadMatrixf`. -/
abbrev Mat4 := Matrix (Fin 4) (Fin 4) ℚ

/-- The three scene draw calls of an eye pass. Their bodies live in the
`UserInterface` library, outside these sources. -/
inductive SceneDraw
  | intf_draw
  | intfScreen_draw
  | intf_drawPointer
  deriving DecidableEq, Repr

/-- One call made by `main`, `create_fbo` or `draw_screen` that touches the
pipeline. `glTexImage2D`, `glTexParameteri` and `glFramebufferTexture2D` act on
texture and framebuffer objects, outside the state tracked below. -/
inductive Cmd
  | glEnable (cap : Cap)
  | glDisable (cap : Cap)
  | glMatrixMode (mode : MatrixMode)
  | ohmd_device_getf (key : OhmdFloat)
  | glLoadMatrixf
  | glLoadIdentity
  | glBindFramebufferEXT (fbo : Nat)
  | glViewport (x y w h : Int)
  | glClear (color depth : Bool)
  | scene (d : SceneDraw)
  | glUseProgram (program : Nat)
  | glUniform1i (program : Nat) (uniform : String) (value : Int)
  | glColor4 (r g b a : ℚ)
  | glBindTexture (tex : Nat)
  | glTexImage2D (width height : Int)
  | glTexParameteri
  | glFramebufferTexture2D (tex : Nat)
  | glBegin
  | glTexCoord2 (s t : ℚ)
  | glVertex3 (x y z : ℚ)
  | glEnd
  | SDL_GL_SwapBuffers
  deriving DecidableEq

/-- Whether a command is one of the scene draw calls. -/
def Cmd.isSceneDraw : Cmd → Bool
  | .scene _ => true
  | _ => false

/-- Whether a command belongs to an immediate-mode quad
(`glBegin` ... `glEnd`). -/
def Cmd.isQuadCmd : Cmd → Bool
  | .glBegin => true
  | .glTexCoord2 _ _ => true
  | .glVertex3 _ _ _ => true
  | .glEnd => true
  | _ => false

/-- A vertex as submitted (`obj`), where it lands in window coordinates
(`win`), and the texture coordinate current when it was submitted. -/
structure Vertex where
  obj : ℚ × ℚ × ℚ
  win : ℚ × ℚ
  tex : ℚ × ℚ
  deriving DecidableEq

/-- A quad emitted by four `glVertex` calls, with the bindings in force. -/
structure Quad where
  framebuffer : Nat
  texture : Option Nat
  program : Nat
  verts : List Vertex
  deriving DecidableEq

/-- The part of the pipeline state that the calls of `main` set. `texture2D`
is `none` when the binding was left by a scene draw call; `colorCleared` and
`depthCleared` say whether the bound framebuffer has been cleared since it was
bound; `matrix` is the local `float matrix[16]` of `main`. -/
structure GLState where
  framebuffer : Nat
  viewport : Int × Int × Int × Int
  colorCleared : Bool
  depthCleared : Bool
  matrixMode : MatrixMode
  projection : Mat4
  modelview : Mat4
  matrix : Mat4
  program : Nat
  uniforms : List (Nat × Nat × String × Int)
  texture2D : Option Nat
  color : ℚ × ℚ × ℚ × ℚ
  texCoord : ℚ × ℚ
  pending : Option (List Vertex)
  quads : List Quad
  blend : Bool
  depthTest : Bool
  texturing : Bool
  swaps : Nat

/-- Fixed-function vertex transform: clip = projection * modelview * v,
perspective divide, then the viewport map
`x_w = x0 + (x_ndc + 1) * w / 2`, `y_w = y0 + (y_ndc + 1) * h / 2`. -/
def toWindow (s : GLState) (x y z : ℚ) : ℚ × ℚ :=
  let clip := (s.projection * s.modelview).mulVec ![x, y, z, 1]
  let ndcx := clip 0 / clip 3
  let ndcy := clip 1 / clip 3
  ((s.viewport.1 : ℚ) + (ndcx + 1) * (s.viewport.2.2.1 : ℚ) / 2,
   (s.viewport.2.1 : ℚ) + (ndcy + 1) * (s.viewport.2.2.2 : ℚ) / 2)

/-- The effect of one command. `hmd` is what the device answers to
`ohmd_device_getf` during this frame. The scene draw calls are taken to leave
framebuffer, viewport, program and matrices as `main` set them; the texture
binding they leave is not known. -/
def step (hmd : OhmdFloat → Mat4) (s : GLState) : Cmd → GLState
  | .glEnable .GL_BLEND => { s with blend := true }
  | .glEnable .GL_DEPTH_TEST => { s with depthTest := true }
  | .glEnable .GL_TEXTURE_2D => { s with texturing := true }
  | .glDisable .GL_BLEND => { s with blend := false }
  | .glDisable .GL_DEPTH_TEST => { s with depthTest := false }
  | .glDisable .GL_TEXTURE_2D => { s with texturing := false }
  | .glMatrixMode m => { s with matrixMode := m }
  | .ohmd_device_getf k => { s with matrix := hmd k }
  | .glLoadMatrixf =>
      match s.matrixMode with
      | .GL_PROJECTION => { s with projection := s.matrix }
      | .GL_MODELVIEW => { s with modelview := s.matrix }
  | .glLoadIdentity =>
      match s.matrixMode with
      | .GL_PROJECTION => { s with projection := 1 }
      | .GL_MODELVIEW => { s with modelview := 1 }
  | .glBindFramebufferEXT fbo =>
      { s with framebuffer := fbo, colorCleared := false, depthCleared := false }
  | .glViewport x y w h => { s with viewport := (x, y, w, h) }
  | .glClear c d =>
      { s with colorCleared := s.colorCleared || c, depthCleared := s.depthCleared || d }
  | .scene _ => { s with texture2D := none }
  | .glUseProgram p => { s with program := p }
  | .glUniform1i p u v => { s with uniforms := s.uniforms ++ [(s.program, p, u, v)] }
  | .glColor4 r g b a => { s with color := (r, g, b, a) }
  | .glBindTexture t => { s with texture2D := some t }
  | .glTexImage2D _ _ => s
  | .glTexParameteri => s
  | .glFramebufferTexture2D _ => s
  | .glBegin => { s with pending := some [] }
  | .glTexCoord2 a b => { s with texCoord := (a, b) }
  | .glVertex3 x y z =>
      match s.pending with
      | none => s
      | some vs =>
          let vs' := vs ++ [{ obj := (x, y, z), win := toWindow s x y z, tex := s.texCoord }]
          if vs'.length = 4 then
            { s with
              pending := some []
              quads := s.quads ++
                [{ framebuffer := s.framebuffer, texture := s.texture2D,
                   program := s.program, verts := vs' }] }
          else { s with pending := some vs' }
  | .glEnd => { s with pending := none }
  | .SDL_GL_SwapBuffers => { s with swaps := s.swaps + 1 }

/-- Run a list of commands. -/
def exec (hmd : OhmdFloat → Mat4) (s : GLState) (cs : List Cmd) : GLState :=
  cs.foldl (step hmd) s

/-- Each command of a list paired with the state it is issued in. -/
def trace (hmd : OhmdFloat → Mat4) : GLState → List Cmd → List (GLState × Cmd)
  | _, [] => []
  | s, c :: cs => (s, c) :: trace hmd (step hmd s c) cs

/-! ## The handles `main` holds and its command sequences -/

/-- The GL names `main` keeps in local variables. -/
structure Handles where
  shader : Nat
  shader2 : Nat
  left_fbo : Nat
  left_color_tex : Nat
  left_depth_tex : Nat
  right_fbo : Nat
  right_color_tex : Nat
  right_depth_tex : Nat

/-- Lines 103-106 of `main.cpp`: program selection and sampler uniforms. -/
def shaderSetup (shader shader2 : Nat) : List Cmd :=
  [ .glUseProgram shader,
    .glUniform1i shader "warpTexture" 0,
    .glUseProgram shader2,
    .glUniform1i shader2 "myTexture" 0 ]

/-- Lines 207-210: common scene state. -/
def sceneState : List Cmd :=
  [ .glEnable .GL_BLEND, .glEnable .GL_DEPTH_TEST ]

/-- Lines 212-230: the left eye pass. -/
def leftEyePass (h : Handles) : List Cmd :=
  [ .glMatrixMode .GL_PROJECTION,
    .ohmd_device_getf .OHMD_LEFT_EYE_GL_PROJECTION_MATRIX,
    .glLoadMatrixf,
    .glMatrixMode .GL_MODELVIEW,
    .ohmd_device_getf .OHMD_LEFT_EYE_GL_MODELVIEW_MATRIX,
    .glLoadMatrixf,
    .glBindFramebufferEXT h.left_fbo,
    .glViewport 0 0 EYE_WIDTH EYE_HEIGHT,
    .glClear true true,
    .scene .intf_draw,
    .scene .intfScreen_draw,
    .scene .intf_drawPointer,
    .glBindFramebufferEXT 0 ]

/-- Lines 233-251: the right eye pass. -/
def rightEyePass (h : Handles) : List Cmd :=
  [ .glMatrixMode .GL_PROJECTION,
    .ohmd_device_getf .OHMD_RIGHT_EYE_GL_PROJECTION_MATRIX,
    .glLoadMatrixf,
    .glMatrixMode .GL_MODELVIEW,
    .ohmd_device_getf .OHMD_RIGHT_EYE_GL_MODELVIEW_MATRIX,
    .glLoadMatrixf,
    .glBindFramebufferEXT h.right_fbo,
    .glViewport 0 0 EYE_WIDTH EYE_HEIGHT,
    .glClear true true,
    .scene .intf_draw,
    .scene .intfScreen_draw,
    .scene .intf_drawPointer,
    .glBindFramebufferEXT 0 ]

/-- Lines 252-253: the end of the common draw state. -/
def sceneCleanup : List Cmd :=
  [ .glDisable .GL_BLEND, .glDisable .GL_DEPTH_TEST ]

/-- Lines 256-266: ortho state for compositing. -/
def orthoSetup (h : Handles) : List Cmd :=
  [ .glUseProgram h.shader,
    .glViewport 0 0 TEST_WIDTH TEST_HEIGHT,
    .glEnable .GL_TEXTURE_2D,
    .glColor4 1 1 1 1,
    .glMatrixMode .GL_PROJECTION,
    .glLoadIdentity,
    .glMatrixMode .GL_MODELVIEW,
    .glLoadIdentity ]

/-- Lines 268-279: the quad showing the left eye. -/
def leftQuad (h : Handles) : List Cmd :=
  [ .glBindTexture h.left_color_tex,
    .glBegin,
    .glTexCoord2 0 0,
    .glVertex3 (-1) (-1) 0,
    .glTexCoord2 1 0,
    .glVertex3 0 (-1) 0,
    .glTexCoord2 1 1,
    .glVertex3 0 1 0,
    .glTexCoord2 0 1,
    .glVertex3 (-1) 1 0,
    .glEnd ]

/-- Lines 281-292: the quad showing the right eye. -/
def rightQuad (h : Handles) : List Cmd :=
  [ .glBindTexture h.right_color_tex,
    .glBegin,
    .glTexCoord2 0 0,
    .glVertex3 0 (-1) 0,
    .glTexCoord2 1 0,
    .glVertex3 1 (-1) 0,
    .glTexCoord2 1 1,
    .glVertex3 1 1 0,
    .glTexCoord2 0 1,
    .glVertex3 0 1 0,
    .glEnd ]

/-- Lines 294-300: state clean up and buffer swap. -/
def frameEnd (h : Handles) : List Cmd :=
  [ .glBindTexture 0,
    .glDisable .GL_TEXTURE_2D,
    .glUseProgram h.shader2,
    .SDL_GL_SwapBuffers ]

/-- The compositing stage, lines 256-300. -/
def compositing (h : Handles) : List Cmd :=
  orthoSetup h ++ leftQuad h ++ rightQuad h ++ frameEnd h

/-- All pipeline calls of one iteration of the loop, lines 207-300. -/
def frame (h : Handles) : List Cmd :=
  sceneState ++ leftEyePass h ++ rightEyePass h ++ sceneCleanup ++ compositing h


/-- The state `main` is in at the top of iteration `n`, when it started the
loop in `s` and the device answers `hmd k` during iteration `k`. -/
def loopState (hmd : Nat → OhmdFloat → Mat4) (h : Handles) (s : GLState) : Nat → GLState
  | 0 => s
  | n + 1 => exec (hmd n) (loopState hmd h s n) (frame h)

/-! ## Rasterisation of a quad -/

/-- Twice the signed area of the triangle `a b p`: positive when `p` lies to
the left of the edge from `a` to `b`. -/
def edgeSide (a b p : ℚ × ℚ) : ℚ :=
  (b.1 - a.1) * (p.2 - a.2) - (b.2 - a.2) * (p.1 - a.1)

/-- Whether `p` lies inside the convex quadrilateral `a b c d`, given in
either orientation. -/
def insideConvex (a b c d p : ℚ × ℚ) : Bool :=
  let e := [edgeSide a b p, edgeSide b c p, edgeSide c d p, edgeSide d a p]
  e.all (fun x => decide (0 ≤ x)) || e.all (fun x => decide (x ≤ 0))

/-- The centre of the pixel in column `i` and row `j`, in window coordinates. -/
def pixelCentre (i j : Int) : ℚ × ℚ := ((i : ℚ) + 1 / 2, (j : ℚ) + 1 / 2)

/-- A quad covers a pixel when the pixel centre lies inside it. -/
def Quad.coversPixel (q : Quad) (i j : Int) : Bool :=
  match q.verts with
  | [a, b, c, d] => insideConvex a.win b.win c.win d.win (pixelCentre i j)
  | _ => false

/-- The trace position `i` holds a scene draw issued while `fbo` is bound. -/
def sceneDrawAt (tr : List (GLState × Cmd)) (fbo : Nat) (i : Nat) : Bool :=
  match tr[i]? with
  | some (s, c) => c.isSceneDraw && s.framebuffer == fbo
  | none => false

/-- The trace position `i` holds a command of an immediate-mode quad. -/
def quadCmdAt (tr : List (GLState × Cmd)) (i : Nat) : Bool :=
  match tr[i]? with
  | some (_, c) => c.isQuadCmd
  | none => false

/-- The trace position `i` holds `glBindTexture tex`. -/
def bindTextureAt (tr : List (GLState × Cmd)) (tex : Nat) (i : Nat) : Bool :=
  match tr[i]? with
  | some (_, c) => c == .glBindTexture tex
  | none => false

/-- The framebuffer bound when the command at position `i` is issued. -/
def framebufferAt (tr : List (GLState × Cmd)) (i : Nat) : Option Nat :=
  (tr[i]?).map (fun p => p.1.framebuffer)

/-- The command at position `i`. -/
def cmdAt (tr : List (GLState × Cmd)) (i : Nat) : Option Cmd :=
  (tr[i]?).map (fun p => p.2)

/-! ## Diagnostics and ways of leaving a function -/

/-- The lines the program prints. -/
inductive Diag
  | usage
  | devices_found (n : Int)
  | failed_to_probe_devices
  | failed_to_open_device
  | SDL_Init_failed
  | SDL_SetVideoMode_failed
  | opengl_info
  | compile_failed (log : String)
  | link_failed (log : String)
  | failed_to_create_fbo (status : Nat)
  deriving DecidableEq, Repr

/-- How a call ends: it returns a value, it leaves the process with an exit
status (`exit` or `return` from `main`), or a failed `assert` aborts. `out` is
what was printed on the way. -/
inductive Outcome (α : Type)
  | returned (value : α) (out : List Diag)
  | exited (code : Int) (out : List Diag)
  | aborted (out : List Diag)

/-- Sequencing: the rest runs only after a return. -/
def Outcome.bind {α β : Type} : Outcome α → (α → Outcome β) → Outcome β
  | .returned a out, f =>
      match f a with
      | .returned b out2 => .returned b (out ++ out2)
      | .exited c out2 => .exited c (out ++ out2)
      | .aborted out2 => .aborted (out ++ out2)
  | .exited c out, _ => .exited c out
  | .aborted out, _ => .aborted out

/-- Whether the call returned to its caller. -/
def Outcome.isReturned {α : Type} : Outcome α → Bool
  | .returned _ _ => true
  | _ => false

/-! ## `gl.cpp`: shaders -/

/-- The constant `GL_FALSE`. -/
def GL_FALSE : Int := 0

/-- The constant `GL_FRAMEBUFFER_COMPLETE_EXT`. -/
def GL_FRAMEBUFFER_COMPLETE_EXT : Nat := 0x8CD5

/-- What the graphics context answers during one call of `compile_shader`:
the names it hands out, and for a shader object and a source the compile
status and info log, for a program the link status and info log. -/
structure ShaderGL where
  vertexShader : Nat
  fragmentShader : Nat
  programShader : Nat
  compileStatus : Nat → String → Int
  shaderInfoLog : Nat → String → String
  linkStatus : Nat → Int
  programInfoLog : Nat → String

/-- The function `compile_shader_src` (gl.cpp 140-154): compiles and prints
`compile failed` with the log when `GL_COMPILE_STATUS` is `GL_FALSE`. -/
def compile_shader_src (gl : ShaderGL) (shader : Nat) (src : String) : List Diag :=
  let status := gl.compileStatus shader src
  let log := gl.shaderInfoLog shader src
  if status = GL_FALSE then [.compile_failed log] else []

/-- The function `compile_shader` (gl.cpp 156-191): `status` and `log` are read
for the program after `glLinkProgram`. -/
def compile_shader (gl : ShaderGL) (vertex fragment : String) : Outcome Nat :=
  let vertexShader := gl.vertexShader
  let fragmentShader := gl.fragmentShader
  let programShader := gl.programShader
  let out1 := compile_shader_src gl vertexShader vertex
  let out2 := compile_shader_src gl fragmentShader fragment
  let status := gl.linkStatus programShader
  let log := gl.programInfoLog programShader
  let out3 := if status = GL_FALSE then [.link_failed log] else []
  .returned programShader (out1 ++ out2 ++ out3)

/-! ## `gl.cpp`: eye targets -/

/-- What the graphics context answers during one call of `create_fbo`: the
names from `glGenTextures` and `glGenFramebuffers`, and the status from
`glCheckFramebufferStatusEXT`. -/
structure FboGL where
  color_tex : Nat
  depth_tex : Nat
  fbo : Nat
  status : Nat

/-- What `create_fbo` leaves in its three out-parameters, with the size its
two textures were allocated with. -/
structure EyeTarget where
  fbo : Nat
  color_tex : Nat
  depth_tex : Nat
  width : Int
  height : Int
  deriving DecidableEq, Repr

/-- The pipeline calls of `create_fbo` (gl.cpp 199-216 and 223). -/
def create_fbo_calls (gl : FboGL) (eye_width eye_height : Int) : List Cmd :=
  [ .glBindTexture gl.color_tex,
    .glTexImage2D eye_width eye_height,
    .glTexParameteri, .glTexParameteri, .glTexParameteri, .glTexParameteri,
    .glBindTexture gl.depth_tex,
    .glTexImage2D eye_width eye_height,
    .glTexParameteri, .glTexParameteri, .glTexParameteri, .glTexParameteri,
    .glBindTexture 0,
    .glBindFramebufferEXT gl.fbo,
    .glFramebufferTexture2D gl.color_tex,
    .glFramebufferTexture2D gl.depth_tex,
    .glBindFramebufferEXT 0 ]

/-- The function `create_fbo` (gl.cpp 193-224): a `void` function; on a status other than
complete it prints and goes on. -/
def create_fbo (gl : FboGL) (eye_width eye_height : Int) : Outcome EyeTarget :=
  let target : EyeTarget :=
    { fbo := gl.fbo, color_tex := gl.color_tex, depth_tex := gl.depth_tex,
      width := eye_width, height := eye_height }
  let status := gl.status
  if status ≠ GL_FRAMEBUFFER_COMPLETE_EXT then
    .returned target [.failed_to_create_fbo status]
  else
    .returned target []

/-! ## Startup of `main` -/

/-- What `main` meets on its way to the loop. `file` is `none` for a file
that `read_file` cannot read as one non-empty block (its `assert` fails). -/
structure Env where
  argc : Int
  num_devices : Int
  hmd_opened : Bool
  sdl_init : Int
  video_mode_ok : Bool
  file : String → Option String
  shaderGL : ShaderGL
  shader2GL : ShaderGL
  leftGL : FboGL
  rightGL : FboGL

/-- The function `init_gl` (gl.cpp 28-77): leaves the process when SDL cannot be set up.
Its state setting calls precede everything modelled here. -/
def init_gl (env : Env) : Outcome Unit :=
  if env.sdl_init < 0 then .exited (-1) [.SDL_Init_failed]
  else if env.video_mode_ok = false then .exited (-1) [.SDL_SetVideoMode_failed]
  else .returned () [.opengl_info]

/-- The function `read_file` (main.cpp 29-45). -/
def read_file (env : Env) (filename : String) : Outcome String :=
  match env.file filename with
  | some buffer => .returned buffer []
  | none => .aborted []

/-- What `main` holds when it reaches `while(!done)`. -/
structure Started where
  handles : Handles
  left : EyeTarget
  right : EyeTarget
  gl : GLState

/-- Lines 54-159 of `main.cpp`, as far as they decide whether and how the
loop is reached. `s0` is the pipeline state `init_gl` leaves. -/
def main_startup (hmd : OhmdFloat → Mat4) (env : Env) (s0 : GLState) : Outcome Started :=
  if env.argc < 2 then .exited 1 [.usage]
  else if env.num_devices < 0 then
    .exited 1 [.devices_found env.num_devices, .failed_to_probe_devices]
  else if env.hmd_opened = false then
    .exited 1 [.devices_found env.num_devices, .failed_to_open_device]
  else
    (Outcome.returned () [.devices_found env.num_devices]).bind fun _ =>
    (init_gl env).bind fun _ =>
    (read_file env "../shaders/test1.vert.glsl").bind fun vertex =>
    (read_file env "../shaders/test1.frag.glsl").bind fun fragment =>
    (read_file env "../shaders/test1.vert2.glsl").bind fun vertex2 =>
    (read_file env "../shaders/test1.frag2.glsl").bind fun fragment2 =>
    (compile_shader env.shaderGL vertex fragment).bind fun shader =>
    (compile_shader env.shader2GL vertex2 fragment2).bind fun shader2 =>
    let s1 := exec hmd s0 (shaderSetup shader shader2)
    (create_fbo env.leftGL EYE_WIDTH EYE_HEIGHT).bind fun left =>
    let s2 := exec hmd s1 (create_fbo_calls env.leftGL EYE_WIDTH EYE_HEIGHT)
    (create_fbo env.rightGL EYE_WIDTH EYE_HEIGHT).bind fun right =>
    let s3 := exec hmd s2 (create_fbo_calls env.rightGL EYE_WIDTH EYE_HEIGHT)
    .returned
      { handles :=
          { shader := shader, shader2 := shader2,
            left_fbo := left.fbo, left_color_tex := left.color_tex,
            left_depth_tex := left.depth_tex,
            right_fbo := right.fbo, right_color_tex := right.color_tex,
            right_depth_tex := right.depth_tex },
        left := left, right := right, gl := s3 } []

/-! ## The loop of `main`: events and pointer focus (lines 161-192) -/

/-- The keys the loop distinguishes. -/
inductive Key
  | SDLK_ESCAPE
  | SDLK_F1
  | SDLK_F2
  | SDLK_SPACE
  | other
  deriving DecidableEq, Repr

/-- An event returned by `SDL_PollEvent`. -/
inductive Event
  | keydown (sym : Key)
  | other
  deriving DecidableEq, Repr

/-- The device values `main` writes with `ohmd_device_setf`. -/
inductive OhmdSet
  | OHMD_ROTATION_QUAT
  | OHMD_POSITION_VECTOR
  deriving DecidableEq, Repr

/-- The calls the loop makes into the device, the window and the two
`UserInterface` objects before it renders, as operations on a world `σ` that
holds whatever those collaborators keep. Their code is outside these sources,
so they are parameters. -/
structure Collab (σ : Type) where
  ohmd_ctx_update : σ → σ
  SDL_WM_ToggleFullScreen : σ → σ
  ohmd_device_setf : OhmdSet → σ → σ
  intf_clickEvent : σ → σ
  intf_pointerFocus : σ → σ
  intfScreen_pointerFocus : σ → σ

/-- The body of `while(SDL_PollEvent(&event))` for one event (lines 166-187);
the first component is `done`. -/
def handleEvent {σ : Type} (c : Collab σ) : Bool × σ → Event → Bool × σ
  | (_, w), .keydown .SDLK_ESCAPE => (true, w)
  | (done, w), .keydown .SDLK_F1 => (done, c.SDL_WM_ToggleFullScreen w)
  | (done, w), .keydown .SDLK_F2 =>
      (done, c.ohmd_device_setf .OHMD_POSITION_VECTOR
        (c.ohmd_device_setf .OHMD_ROTATION_QUAT w))
  | (done, w), .keydown .SDLK_SPACE => (done, c.intf_clickEvent w)
  | (done, w), .keydown .other => (done, w)
  | (done, w), .other => (done, w)

/-- The event loop of one iteration, over the events pending in the queue. -/
def pollEvents {σ : Type} (c : Collab σ) (st : Bool × σ) (events : List Event) : Bool × σ :=
  events.foldl (handleEvent c) st

/-- Lines 162-192 of one iteration, entered with `done = false`. -/
def interaction {σ : Type} (c : Collab σ) (events : List Event) (w : σ) : Bool × σ :=
  let w1 := c.ohmd_ctx_update w
  let st := pollEvents c (false, w1) events
  let w3 := c.intf_pointerFocus st.2
  let w4 := c.intfScreen_pointerFocus w3
  (st.1, w4)

/-- The collaborator calls by name. -/
inductive Act
  | ohmd_ctx_update
  | SDL_WM_ToggleFullScreen
  | ohmd_device_setf (k : OhmdSet)
  | intf_clickEvent
  | intf_pointerFocus
  | intfScreen_pointerFocus
  deriving DecidableEq, Repr

/-- The collaborators that only write down which call was made. -/
def recorder : Collab (List Act) where
  ohmd_ctx_update := fun l => l ++ [.ohmd_ctx_update]
  SDL_WM_ToggleFullScreen := fun l => l ++ [.SDL_WM_ToggleFullScreen]
  ohmd_device_setf := fun k l => l ++ [.ohmd_device_setf k]
  intf_clickEvent := fun l => l ++ [.intf_clickEvent]
  intf_pointerFocus := fun l => l ++ [.intf_pointerFocus]
  intfScreen_pointerFocus := fun l => l ++ [.intfScreen_pointerFocus]

/-- The number of space key presses among the events. -/
def spacePresses (events : List Event) : Nat :=
  events.count (.keydown .SDLK_SPACE)

/-- Modelled from the spec: the focus state of the interaction surfaces
(`UserInterface`, in userinterface.h, is not among the sources). A head pose is
a number naming the pointer ray; `upcoming` are the poses the tracker reports
at the coming `ohmd_ctx_update` calls; `focused` and `locked` are the focused
and locked widget of `intf`; `delivered` lists the widgets that received a
click. -/
structure UIWorld where
  upcoming : List Nat
  pose : Nat
  focused : Option Nat
  locked : Option Nat
  screenFocused : Option Nat
  delivered : List Nat
  fullscreen : Bool
  deriving DecidableEq, Repr

/-- Modelled from the spec: `pointerFocus` keeps the locked widget focused,
otherwise focuses the widget the ray hits (`hit`), or none; `clickEvent` is
delivered to the focused widget and is a no-op without one; the reset sets the
pose to zero. What a widget does with a click is left out. -/
def uiCollab (hit hitScreen : Nat → Option Nat) : Collab UIWorld where
  ohmd_ctx_update := fun w =>
    match w.upcoming with
    | [] => w
    | p :: ps => { w with pose := p, upcoming := ps }
  SDL_WM_ToggleFullScreen := fun w => { w with fullscreen := !w.fullscreen }
  ohmd_device_setf := fun _ w => { w with pose := 0 }
  intf_clickEvent := fun w =>
    match w.focused with
    | none => w
    | some x => { w with delivered := w.delivered ++ [x] }
  intf_pointerFocus := fun w =>
    match w.locked with
    | some l => { w with focused := some l }
    | none => { w with focused := hit w.pose }
  intfScreen_pointerFocus := fun w => { w with screenFocused := hitScreen w.pose }

/-! ## The loop of `main`: the size of the screen (lines 197-205) -/

/-- The two fields of `Player` the loop reads. -/
structure Player where
  i_width : Int
  i_height : Int
  deriving DecidableEq, Repr

/-- Modelled from the spec: the origin and scale of a `UserInterface`. -/
structure Surface where
  x : ℚ
  y : ℚ
  z : ℚ
  width : ℚ
  height : ℚ
  deriving DecidableEq

/-- Modelled from the spec: the rectangle of a widget. -/
structure Control where
  x : ℚ
  y : ℚ
  width : ℚ
  height : ℚ
  deriving DecidableEq

/-- Modelled from the spec: `UserInterface::setSize` sets the scale. -/
def Surface.setSize (s : Surface) (w h : ℚ) : Surface := { s with width := w, height := h }

/-- Modelled from the spec: `UserInterface::setPosition` sets the origin. -/
def Surface.setPosition (s : Surface) (x y z : ℚ) : Surface := { s with x := x, y := y, z := z }

/-- Modelled from the spec: `UserInterface::getPosition` reads the origin. -/
def Surface.getPosition (s : Surface) : ℚ × ℚ × ℚ := (s.x, s.y, s.z)

/-- Modelled from the spec: the `setSize` of a widget sets its rectangle. -/
def Control.setSize (c : Control) (w h : ℚ) : Control := { c with width := w, height := h }

/-- Lines 197-205: `-1 / f_ar / 2.f` is `((-1) / f_ar) / 2`. -/
def updateScreenSize (p : Player) (intfScreen : Surface) (screen : Control) : Surface × Control :=
  let f_ar : ℚ := (p.i_width : ℚ) / (p.i_height : ℚ)
  let intfScreen1 := intfScreen.setSize 1 (1 / f_ar)
  let screen1 := screen.setSize 1 (1 / f_ar)
  let z := intfScreen1.getPosition.2.2
  let intfScreen2 := intfScreen1.setPosition (-(1 / 2)) (-1 / f_ar / 2) z
  (intfScreen2, screen1)

/-! ## `gl.cpp`: `draw_screen` -/

/-- The function `draw_screen` (gl.cpp 79-105); `texture0` is the global `texture[0]`. -/
def draw_screen (texture0 : Nat) (f_screenAR f_screenPos : ℚ) : List Cmd :=
  let h := 1 / f_screenAR
  [ .glBindTexture texture0,
    .glColor4 0 0 0 0,
    .glBegin,
    .glTexCoord2 0 1,
    .glVertex3 (-(1 / 2)) (-h / 2) f_screenPos,
    .glTexCoord2 0 0,
    .glVertex3 (-(1 / 2)) (h / 2) f_screenPos,
    .glTexCoord2 1 0,
    .glVertex3 (1 / 2) (h / 2) f_screenPos,
    .glTexCoord2 1 1,
    .glVertex3 (1 / 2) (-h / 2) f_screenPos,
    .glEnd ]

/-- The vertices a list of commands submits, in order. -/
def submitted : List Cmd → List (ℚ × ℚ × ℚ)
  | [] => []
  | .glVertex3 x y z :: cs => (x, y, z) :: submitted cs
  | _ :: cs => submitted cs

/-- The pipeline state of a fresh context bound to a window of the given
size: default framebuffer, no program, identity matrices. -/
def GLState.fresh (w h : Int) : GLState :=
  { framebuffer := 0, viewport := (0, 0, w, h), colorCleared := false, depthCleared := false,
    matrixMode := .GL_MODELVIEW, projection := 1, modelview := 1, matrix := 0, program := 0,
    uniforms := [], texture2D := some 0, color := (1, 1, 1, 1), texCoord := (0, 0),
    pending := none, quads := [], blend := false, depthTest := false, texturing := false,
    swaps := 0 }

/-! ## `gl.cpp`: `updateTexture` beside a writer of the pixel buffer -/

/-- The two threads that touch the pixel buffer of the `Player`. -/
inductive Tid
  | render
  | decode
  deriving DecidableEq, Repr

/-- Where the render thread stands in `updateTexture` (gl.cpp 128-137):
outside the function; after the `lock_guard` is constructed (line 130); after
`glBindTexture` (line 133); inside `glTexImage2D`, which has read `k` elements
of `p_imgData` (lines 134-136); after `glTexImage2D` has returned, before the
`lock_guard` is destroyed at the closing brace. -/
inductive UploadPC
  | outside
  | locked
  | bound
  | copying (k : Nat)
  | copied
  deriving DecidableEq, Repr

/-- Modelled from the spec: where the producer stands. Outside its critical
section, about to write the pattern `next`; or holding the mutex, having
written `k` elements of the pattern `pat`. -/
inductive WritePC
  | outside (next : Bool)
  | writing (pat : Bool) (k : Nat)
  deriving DecidableEq, Repr

/-- The mutex and pixel buffer of the `Player`, the two threads, the texture
image being filled by the upload in progress, and the images of the uploads
completed so far. -/
structure Shared where
  mutex : Option Tid
  imgData : List Nat
  upload : UploadPC
  writer : WritePC
  tex : List Nat
  uploads : List (List Nat)
  deriving DecidableEq, Repr

/-- One atomic step of the render thread through `updateTexture`, called again
once it has returned. Constructing the `lock_guard` blocks (the state stays)
while the mutex is taken; `glTexImage2D` reads the buffer element by element. -/
def updateTexture_step (s : Shared) : Shared :=
  match s.upload with
  | .outside =>
      match s.mutex with
      | none => { s with mutex := some .render, upload := .locked }
      | some _ => s
  | .locked => { s with upload := .bound }
  | .bound => { s with upload := .copying 0, tex := [] }
  | .copying k =>
      match s.imgData[k]? with
      | some v => { s with tex := s.tex ++ [v], upload := .copying (k + 1) }
      | none => { s with upload := .copied, uploads := s.uploads ++ [s.tex] }
  | .copied => { s with mutex := none, upload := .outside }

/-- Modelled from the spec: one atomic step of a producer that takes the same
mutex, overwrites the whole buffer with one of two patterns element by
element, releases the mutex and goes on with the other pattern. -/
def writer_step (pattern : Bool → List Nat) (s : Shared) : Shared :=
  match s.writer with
  | .outside next =>
      match s.mutex with
      | none => { s with mutex := some .decode, writer := .writing next 0 }
      | some _ => s
  | .writing pat k =>
      if k < s.imgData.length then
        { s with imgData := s.imgData.set k ((pattern pat).getD k 0), writer := .writing pat (k + 1) }
      else
        { s with mutex := none, writer := .outside (!pat) }

/-- One step of the thread the scheduler picks. -/
def threadStep (pattern : Bool → List Nat) (s : Shared) : Tid → Shared
  | .render => updateTexture_step s
  | .decode => writer_step pattern s

/-- The state after a schedule, a list of which thread moves next. -/
def runThreads (pattern : Bool → List Nat) (s : Shared) (schedule : List Tid) : Shared :=
  schedule.foldl (threadStep pattern) s

/-- Both threads outside their critical sections, the buffer holding the
pattern `first`. -/
def Shared.start (pattern : Bool → List Nat) (first : Bool) : Shared :=
  { mutex := none, imgData := pattern first, upload := .outside,
    writer := .outside (!first), tex := [], uploads := [] }

/-! ## Bindings along a run -/

/-- What a command does to the pair (bound framebuffer, active program);
`step_bindings` shows that this is what `step` does to the two fields. -/
def bindingStep (b : Nat × Nat) : Cmd → Nat × Nat
  | .glBindFramebufferEXT f => (f, b.2)
  | .glUseProgram p => (b.1, p)
  | _ => b

/-- Each command of a list with the framebuffer bound and the program active
when it is issued. -/
def bindingTrace : Nat × Nat → List Cmd → List (Nat × Nat × Cmd)
  | _, [] => []
  | b, c :: cs => (b.1, b.2, c) :: bindingTrace (bindingStep b c) cs

/-! ## Concrete inputs -/

/-- A context in which shaders compile and link, handing out the given
names. -/
def ShaderGL.working (v f p : Nat) : ShaderGL :=
  { vertexShader := v, fragmentShader := f, programShader := p,
    compileStatus := fun _ _ => 1, shaderInfoLog := fun _ _ => "",
    linkStatus := fun _ => 1, programInfoLog := fun _ => "" }

/-- A run in which everything `main` needs is there and both framebuffers
are complete. -/
def Env.working : Env :=
  { argc := 2, num_devices := 1, hmd_opened := true, sdl_init := 0, video_mode_ok := true,
    file := fun _ => some "void main()",
    shaderGL := ShaderGL.working 1 2 3,
    shader2GL := ShaderGL.working 4 5 6,
    leftGL := { color_tex := 1, depth_tex := 2, fbo := 1, status := GL_FRAMEBUFFER_COMPLETE_EXT },
    rightGL := { color_tex := 3, depth_tex := 4, fbo := 2, status := GL_FRAMEBUFFER_COMPLETE_EXT } }

/-- The constant `GL_FRAMEBUFFER_INCOMPLETE_ATTACHMENT_EXT`. -/
def GL_FRAMEBUFFER_INCOMPLETE_ATTACHMENT_EXT : Nat := 0x8CD6

/-- The same run, except that the context reports the left framebuffer
incomplete. -/
def Env.leftIncomplete : Env :=
  { Env.working with
    leftGL := { color_tex := 1, depth_tex := 2, fbo := 1,
                status := GL_FRAMEBUFFER_INCOMPLETE_ATTACHMENT_EXT } }

/-- The environment with the two framebuffer statuses replaced. -/
def Env.withStatus (env : Env) (left right : Nat) : Env :=
  { env with
    leftGL := { env.leftGL with status := left }
    rightGL := { env.rightGL with status := right } }

/-- An outcome without what was printed. -/
def Outcome.silent {α : Type} : Outcome α → Outcome α
  | .returned a _ => .returned a []
  | .exited c _ => .exited c []
  | .aborted _ => .aborted []

/-- A device that reports the identity for every matrix. -/
def idDevice : OhmdFloat → Mat4 := fun _ => 1

/-- What `main` holds at the loop in the run `Env.working`, and equally in
`Env.leftIncomplete`. -/
def Started.working : Started :=
  { handles :=
      { shader := 3, shader2 := 6, left_fbo := 1, left_color_tex := 1, left_depth_tex := 2,
        right_fbo := 2, right_color_tex := 3, right_depth_tex := 4 },
    left := { fbo := 1, color_tex := 1, depth_tex := 2, width := EYE_WIDTH, height := EYE_HEIGHT },
    right := { fbo := 2, color_tex := 3, depth_tex := 4, width := EYE_WIDTH, height := EYE_HEIGHT },
    gl := exec idDevice (exec idDevice (exec idDevice (GLState.fresh TEST_WIDTH TEST_HEIGHT)
        (shaderSetup 3 6)) (create_fbo_calls Env.working.leftGL EYE_WIDTH EYE_HEIGHT))
        (create_fbo_calls Env.working.rightGL EYE_WIDTH EYE_HEIGHT) }

/-- The invariant of the two threads: the buffer keeps its length; outside
its critical section the writer has left a whole pattern and does not hold the
mutex, inside it holds the mutex and has written a prefix of its pattern;
inside `updateTexture` the render thread holds the mutex and the texture image
is the prefix of the buffer read so far; every completed upload is a whole
pattern. -/
def UploadInv (pattern : Bool → List Nat) (s : Shared) : Prop :=
  s.imgData.length = (pattern true).length ∧
  (match s.writer with
    | .outside _ =>
        (s.imgData = pattern true ∨ s.imgData = pattern false) ∧ s.mutex ≠ some .decode
    | .writing pat k =>
        s.mutex = some .decode ∧ s.imgData.take k = (pattern pat).take k) ∧
  (match s.upload with
    | .outside => s.mutex ≠ some .render
    | .locked => s.mutex = some .render
    | .bound => s.mutex = some .render
    | .copying k => s.mutex = some .render ∧ s.tex = s.imgData.take k
    | .copied => s.mutex = some .render) ∧
  (∀ u ∈ s.uploads, u = pattern true ∨ u = pattern false)

/-! # Theorems -/

set_option maxHeartbeats 4000000

/-! ## Lemmas about running commands -/

theorem exec_append (hmd : OhmdFloat → Mat4) (s : GLState) (a b : List Cmd) :
    exec hmd s (a ++ b) = exec hmd (exec hmd s a) b := by
  simp [exec, List.foldl_append]

/-- A pixel centre lies in an upright rectangle with integer corners exactly
when the pixel's column and row lie in the half-open integer ranges. -/
theorem inside_rect (x0 x1 y1 : Int) (hx : x0 < x1) (hy : 0 < y1) (i j : Int) :
    insideConvex ((x0 : ℚ), 0) ((x1 : ℚ), 0) ((x1 : ℚ), (y1 : ℚ)) ((x0 : ℚ), (y1 : ℚ))
        (pixelCentre i j) = true
      ↔ (x0 ≤ i ∧ i < x1 ∧ 0 ≤ j ∧ j < y1) := by
  have hx' : (0 : ℚ) < (x1 : ℚ) - x0 := by exact_mod_cast sub_pos.mpr hx
  have hy' : (0 : ℚ) < (y1 : ℚ) := by exact_mod_cast hy
  simp only [insideConvex, edgeSide, pixelCentre, List.all_cons, List.all_nil, Bool.and_true,
    Bool.or_eq_true, Bool.and_eq_true, decide_eq_true_eq]
  simp only [sub_zero, zero_mul, sub_self, zero_sub, mul_zero]
  constructor
  · rintro (⟨h1, h2, h3, h4⟩ | ⟨h1, -, h3, -⟩)
    · have a1 : (0 : ℚ) ≤ (j : ℚ) + 1 / 2 := by
        by_contra hc
        push_neg at hc
        nlinarith
      have a2 : (i : ℚ) + 1 / 2 ≤ x1 := by
        by_contra hc
        push_neg at hc
        nlinarith
      have a3 : (j : ℚ) + 1 / 2 ≤ y1 := by
        by_contra hc
        push_neg at hc
        nlinarith
      have a4 : (x0 : ℚ) ≤ (i : ℚ) + 1 / 2 := by
        by_contra hc
        push_neg at hc
        nlinarith
      refine ⟨?_, ?_, ?_, ?_⟩
      · by_contra hc
        have : i + 1 ≤ x0 := by omega
        have : ((i : ℚ) + 1) ≤ x0 := by exact_mod_cast this
        linarith
      · by_contra hc
        have : x1 ≤ i := by omega
        have : (x1 : ℚ) ≤ i := by exact_mod_cast this
        linarith
      · by_contra hc
        have : j + 1 ≤ 0 := by omega
        have : ((j : ℚ) + 1) ≤ 0 := by exact_mod_cast this
        linarith
      · by_contra hc
        have : y1 ≤ j := by omega
        have : (y1 : ℚ) ≤ j := by exact_mod_cast this
        linarith
    · exfalso
      have a1 : (j : ℚ) + 1 / 2 ≤ 0 := by
        by_contra hc
        push_neg at hc
        nlinarith
      have a3 : (y1 : ℚ) ≤ (j : ℚ) + 1 / 2 := by
        by_contra hc
        push_neg at hc
        nlinarith
      linarith
  · rintro ⟨h1, h2, h3, h4⟩
    have b1 : (x0 : ℚ) ≤ i := by exact_mod_cast h1
    have b2 : (i : ℚ) + 1 ≤ x1 := by exact_mod_cast (show i + 1 ≤ x1 by omega)
    have b3 : (0 : ℚ) ≤ j := by exact_mod_cast h3
    have b4 : (j : ℚ) + 1 ≤ y1 := by exact_mod_cast (show j + 1 ≤ y1 by omega)
    left
    refine ⟨?_, ?_, ?_, ?_⟩
    · apply mul_nonneg hx'.le; linarith
    · have : 0 ≤ (y1 : ℚ) * ((x1 : ℚ) - ((i : ℚ) + 1 / 2)) := mul_nonneg hy'.le (by linarith)
      linarith
    · have : 0 ≤ ((x1 : ℚ) - x0) * ((y1 : ℚ) - ((j : ℚ) + 1 / 2)) :=
        mul_nonneg hx'.le (by linarith)
      linarith
    · have : 0 ≤ (y1 : ℚ) * (((i : ℚ) + 1 / 2) - x0) := mul_nonneg hy'.le (by linarith)
      linarith

/-- The two quads one frame adds, with the window position of every corner. -/
theorem frame_quads (hmd : OhmdFloat → Mat4) (h : Handles) (s0 : GLState) :
    (exec hmd s0 (frame h)).quads = s0.quads ++
      [ { framebuffer := 0, texture := some h.left_color_tex, program := h.shader,
          verts := [ { obj := (-1, -1, 0), win := (0, 0), tex := (0, 0) },
                     { obj := (0, -1, 0), win := (1080, 0), tex := (1, 0) },
                     { obj := (0, 1, 0), win := (1080, 1200), tex := (1, 1) },
                     { obj := (-1, 1, 0), win := (0, 1200), tex := (0, 1) } ] },
        { framebuffer := 0, texture := some h.right_color_tex, program := h.shader,
          verts := [ { obj := (0, -1, 0), win := (1080, 0), tex := (0, 0) },
                     { obj := (1, -1, 0), win := (2160, 0), tex := (1, 0) },
                     { obj := (1, 1, 0), win := (2160, 1200), tex := (1, 1) },
                     { obj := (0, 1, 0), win := (1080, 1200), tex := (0, 1) } ] } ] := by
  simp [exec, frame, sceneState, leftEyePass, rightEyePass, sceneCleanup, compositing,
    orthoSetup, leftQuad, rightQuad, frameEnd, step, toWindow, TEST_WIDTH, TEST_HEIGHT]
  norm_num

theorem frame_quad_state (hmd : OhmdFloat → Mat4) (h : Handles) (s0 : GLState) :
    ∀ p ∈ trace hmd s0 (frame h), p.2.isQuadCmd = true →
      p.1.framebuffer = 0 ∧ p.1.viewport = (0, 0, TEST_WIDTH, TEST_HEIGHT) ∧
      p.1.projection = 1 ∧ p.1.modelview = 1 ∧ p.1.program = h.shader := by
  simp [trace, frame, sceneState, leftEyePass, rightEyePass, sceneCleanup, compositing,
    orthoSetup, leftQuad, rightQuad, frameEnd, step, Cmd.isQuadCmd]

/-- The effect of `step` on the bound framebuffer and the active program. -/
theorem step_bindings (hmd : OhmdFloat → Mat4) (s : GLState) (c : Cmd) :
    ((step hmd s c).framebuffer, (step hmd s c).program) =
      bindingStep (s.framebuffer, s.program) c := by
  cases c with
  | glEnable cap => cases cap <;> rfl
  | glDisable cap => cases cap <;> rfl
  | glLoadMatrixf => simp only [step, bindingStep]; split <;> rfl
  | glLoadIdentity => simp only [step, bindingStep]; split <;> rfl
  | glVertex3 x y z =>
      simp only [step, bindingStep]
      split
      · rfl
      · split <;> rfl
  | _ => rfl

theorem exec_bindings (hmd : OhmdFloat → Mat4) (s : GLState) (cs : List Cmd) :
    ((exec hmd s cs).framebuffer, (exec hmd s cs).program) =
      cs.foldl bindingStep (s.framebuffer, s.program) := by
  induction cs generalizing s with
  | nil => rfl
  | cons c cs ih =>
      have h1 := ih (step hmd s c)
      rw [step_bindings] at h1
      simpa [exec] using h1

theorem trace_bindings (hmd : OhmdFloat → Mat4) (s : GLState) (cs : List Cmd) :
    (trace hmd s cs).map (fun p => (p.1.framebuffer, p.1.program, p.2)) =
      bindingTrace (s.framebuffer, s.program) cs := by
  induction cs generalizing s with
  | nil => rfl
  | cons c cs ih =>
      have h1 := ih (step hmd s c)
      rw [step_bindings] at h1
      simp [trace, bindingTrace, h1]

/-- One frame leaves the default framebuffer bound and `shader2` active. -/
theorem frame_end_bindings (hmd : OhmdFloat → Mat4) (h : Handles) (s0 : GLState) :
    (exec hmd s0 (frame h)).framebuffer = 0 ∧ (exec hmd s0 (frame h)).program = h.shader2 := by
  have := exec_bindings hmd s0 (frame h)
  simp [bindingStep, frame, sceneState, leftEyePass, rightEyePass, sceneCleanup, compositing,
    orthoSetup, leftQuad, rightQuad, frameEnd] at this
  exact this

/-- At the top of every iteration the default framebuffer is bound and
`shader2` is active, when they were so on entering the loop. -/
theorem loop_bindings (hmd : Nat → OhmdFloat → Mat4) (h : Handles) (s : GLState)
    (hf : s.framebuffer = 0) (hp : s.program = h.shader2) (n : Nat) :
    (loopState hmd h s n).framebuffer = 0 ∧ (loopState hmd h s n).program = h.shader2 := by
  cases n with
  | zero => exact ⟨hf, hp⟩
  | succ n => exact frame_end_bindings (hmd n) h (loopState hmd h s n)

/-- A sequence returns only when both parts return. -/
theorem Outcome.bind_returned {α β : Type} (o : Outcome α) (f : α → Outcome β) (b : β)
    (out : List Diag) (h : o.bind f = .returned b out) :
    ∃ a o1 o2, o = .returned a o1 ∧ f a = .returned b o2 ∧ out = o1 ++ o2 := by
  cases o with
  | returned a o1 =>
      simp only [Outcome.bind] at h
      cases hf : f a with
      | returned b2 o2 =>
          rw [hf] at h
          simp only [Outcome.returned.injEq] at h
          exact ⟨a, o1, o2, rfl, by rw [hf, h.1], h.2.symm⟩
      | exited c o2 => rw [hf] at h; cases h
      | aborted o2 => rw [hf] at h; cases h
  | exited c o1 => cases h
  | aborted o1 => cases h

theorem create_fbo_returned (gl : FboGL) (w h : Int) (t : EyeTarget) (out : List Diag)
    (hc : create_fbo gl w h = .returned t out) :
    t = { fbo := gl.fbo, color_tex := gl.color_tex, depth_tex := gl.depth_tex,
          width := w, height := h } := by
  simp only [create_fbo] at hc
  split at hc <;> (cases hc; rfl)

theorem compile_shader_returned (gl : ShaderGL) (v f : String) (p : Nat) (out : List Diag)
    (hc : compile_shader gl v f = .returned p out) : p = gl.programShader := by
  unfold compile_shader at hc
  cases hc
  rfl

theorem setup_bindings (hmd : OhmdFloat → Mat4) (s0 : GLState) (a b : Nat) (l r : FboGL)
    (w h : Int) :
    (exec hmd (exec hmd (exec hmd s0 (shaderSetup a b)) (create_fbo_calls l w h))
      (create_fbo_calls r w h)).framebuffer = 0 ∧
    (exec hmd (exec hmd (exec hmd s0 (shaderSetup a b)) (create_fbo_calls l w h))
      (create_fbo_calls r w h)).program = b := by
  rw [← exec_append, ← exec_append]
  have := exec_bindings hmd s0 (shaderSetup a b ++ create_fbo_calls l w h ++ create_fbo_calls r w h)
  simp [bindingStep, shaderSetup, create_fbo_calls] at this
  exact this

/-- What `main` holds on reaching the loop: the names the context handed out,
targets of `EYE_WIDTH` by `EYE_HEIGHT`, the default framebuffer bound and
`shader2` active. -/
theorem main_startup_returned (hmd : OhmdFloat → Mat4) (env : Env) (s0 : GLState)
    (st : Started) (out : List Diag) (hst : main_startup hmd env s0 = .returned st out) :
    st.left = { fbo := env.leftGL.fbo, color_tex := env.leftGL.color_tex,
                depth_tex := env.leftGL.depth_tex, width := EYE_WIDTH, height := EYE_HEIGHT } ∧
    st.right = { fbo := env.rightGL.fbo, color_tex := env.rightGL.color_tex,
                 depth_tex := env.rightGL.depth_tex, width := EYE_WIDTH, height := EYE_HEIGHT } ∧
    st.handles.shader = env.shaderGL.programShader ∧
    st.handles.shader2 = env.shader2GL.programShader ∧
    st.handles.left_fbo = env.leftGL.fbo ∧
    st.handles.left_color_tex = env.leftGL.color_tex ∧
    st.handles.right_fbo = env.rightGL.fbo ∧
    st.handles.right_color_tex = env.rightGL.color_tex ∧
    st.gl.framebuffer = 0 ∧ st.gl.program = st.handles.shader2 ∧
    st.gl = exec hmd (exec hmd (exec hmd s0
        (shaderSetup env.shaderGL.programShader env.shader2GL.programShader))
        (create_fbo_calls env.leftGL EYE_WIDTH EYE_HEIGHT))
        (create_fbo_calls env.rightGL EYE_WIDTH EYE_HEIGHT) := by
  unfold main_startup at hst
  split at hst
  · cases hst
  split at hst
  · cases hst
  split at hst
  · cases hst
  obtain ⟨_, _, _, -, hst, -⟩ := Outcome.bind_returned _ _ _ _ hst
  obtain ⟨_, _, _, -, hst, -⟩ := Outcome.bind_returned _ _ _ _ hst
  obtain ⟨vertex, _, _, -, hst, -⟩ := Outcome.bind_returned _ _ _ _ hst
  obtain ⟨fragment, _, _, -, hst, -⟩ := Outcome.bind_returned _ _ _ _ hst
  obtain ⟨vertex2, _, _, -, hst, -⟩ := Outcome.bind_returned _ _ _ _ hst
  obtain ⟨fragment2, _, _, -, hst, -⟩ := Outcome.bind_returned _ _ _ _ hst
  obtain ⟨shader, _, _, hs1, hst, -⟩ := Outcome.bind_returned _ _ _ _ hst
  obtain ⟨shader2, _, _, hs2, hst, -⟩ := Outcome.bind_returned _ _ _ _ hst
  obtain ⟨left, _, _, hl, hst, -⟩ := Outcome.bind_returned _ _ _ _ hst
  obtain ⟨right, _, _, hr, hst, -⟩ := Outcome.bind_returned _ _ _ _ hst
  have e1 := compile_shader_returned _ _ _ _ _ hs1
  have e2 := compile_shader_returned _ _ _ _ _ hs2
  have e3 := create_fbo_returned _ _ _ _ _ hl
  have e4 := create_fbo_returned _ _ _ _ _ hr
  simp only [Outcome.returned.injEq] at hst
  obtain ⟨rfl, -⟩ := hst
  subst e1 e2 e3 e4
  have hb := setup_bindings hmd s0 env.shaderGL.programShader env.shader2GL.programShader
    env.leftGL env.rightGL EYE_WIDTH EYE_HEIGHT
  exact ⟨rfl, rfl, rfl, rfl, rfl, rfl, rfl, rfl, hb.1, hb.2, rfl⟩

/-- Where in a frame the scene draws, the quad commands, the eye framebuffers
and the eye texture bindings are, for a frame entered with the default
framebuffer bound and `shader2` active. -/
theorem frame_classify (h : Handles)
    (hl : h.left_fbo ≠ 0) (hr : h.right_fbo ≠ 0) (hlr : h.left_fbo ≠ h.right_fbo)
    (i fb pr : Nat) (c : Cmd)
    (hi : (bindingTrace (0, h.shader2) (frame h))[i]? = some (fb, pr, c)) :
    (c.isSceneDraw = true → fb = h.left_fbo → 11 ≤ i ∧ i ≤ 13) ∧
    (c.isSceneDraw = true → fb = h.right_fbo → 24 ≤ i ∧ i ≤ 26) ∧
    (c.isSceneDraw = true → (fb = h.left_fbo ∨ fb = h.right_fbo) ∧ pr = h.shader2) ∧
    (c.isQuadCmd = true → 39 ≤ i ∧ fb = 0 ∧ pr = h.shader) ∧
    (fb = h.left_fbo → c ≠ .glBindFramebufferEXT h.right_fbo ∧
      c ≠ .glBindTexture h.right_color_tex ∧ c ≠ .glBindTexture h.left_color_tex ∧
      c.isQuadCmd = false) ∧
    (fb = h.right_fbo → c ≠ .glBindFramebufferEXT h.left_fbo ∧
      c ≠ .glBindTexture h.left_color_tex ∧ c ≠ .glBindTexture h.right_color_tex ∧
      c.isQuadCmd = false) ∧
    (c = .glBindTexture h.left_color_tex ∨ c = .glBindTexture h.right_color_tex →
      fb = 0 ∧ 38 ≤ i) ∧
    (c = .SDL_GL_SwapBuffers → pr = h.shader2) := by
  have key : ∀ p ∈ (bindingTrace (0, h.shader2) (frame h)).enum,
      (p.2.2.2.isSceneDraw = true → p.2.1 = h.left_fbo → 11 ≤ p.1 ∧ p.1 ≤ 13) ∧
      (p.2.2.2.isSceneDraw = true → p.2.1 = h.right_fbo → 24 ≤ p.1 ∧ p.1 ≤ 26) ∧
      (p.2.2.2.isSceneDraw = true →
        (p.2.1 = h.left_fbo ∨ p.2.1 = h.right_fbo) ∧ p.2.2.1 = h.shader2) ∧
      (p.2.2.2.isQuadCmd = true → 39 ≤ p.1 ∧ p.2.1 = 0 ∧ p.2.2.1 = h.shader) ∧
      (p.2.1 = h.left_fbo → p.2.2.2 ≠ .glBindFramebufferEXT h.right_fbo ∧
        p.2.2.2 ≠ .glBindTexture h.right_color_tex ∧
        p.2.2.2 ≠ .glBindTexture h.left_color_tex ∧ p.2.2.2.isQuadCmd = false) ∧
      (p.2.1 = h.right_fbo → p.2.2.2 ≠ .glBindFramebufferEXT h.left_fbo ∧
        p.2.2.2 ≠ .glBindTexture h.left_color_tex ∧
        p.2.2.2 ≠ .glBindTexture h.right_color_tex ∧ p.2.2.2.isQuadCmd = false) ∧
      (p.2.2.2 = .glBindTexture h.left_color_tex ∨ p.2.2.2 = .glBindTexture h.right_color_tex →
        p.2.1 = 0 ∧ 38 ≤ p.1) ∧
      (p.2.2.2 = .SDL_GL_SwapBuffers → p.2.2.1 = h.shader2) := by
    have hl' := hl.symm
    have hr' := hr.symm
    have hlr' := hlr.symm
    simp [bindingTrace, bindingStep, frame, sceneState, leftEyePass, rightEyePass, sceneCleanup,
      compositing, orthoSetup, leftQuad, rightQuad, frameEnd, List.enum, List.enumFrom,
      Cmd.isSceneDraw, Cmd.isQuadCmd, hl, hr, hlr, hl', hr', hlr']
  exact key (i, fb, pr, c) (List.mk_mem_enum_iff_getElem?.mpr hi)

/-- The run `Env.working` reaches the loop holding `Started.working`. -/
theorem working_startup :
    main_startup idDevice Env.working (GLState.fresh TEST_WIDTH TEST_HEIGHT) =
      .returned Started.working [.devices_found 1, .opengl_info] := by
  rfl

/-! ## C1: the compositing quads -/

/-- C1: in every frame, whatever state it starts in, the compositing stage adds
exactly two quads to the default framebuffer, the one textured with
`left_color_tex` first and the one textured with `right_color_tex` second;
every command of the two quads is issued under the viewport
`(0, 0, TEST_WIDTH, TEST_HEIGHT)` with identity projection and modelview; the
left quad has corners x in {-1, 0}, y in {-1, 1} and covers exactly the pixels
of columns `[0, W/2)` in all rows `[0, H)`, the right quad has corners x in
{0, 1}, y in {-1, 1} and covers exactly the columns `[W/2, W)` in all rows;
texture coordinate (0,0) goes to the bottom-left and (1,1) to the top-right
window corner of each quad. -/
theorem compositing_quads_cover_halves (hmd : OhmdFloat → Mat4) (h : Handles) (s0 : GLState) :
    ∃ qL qR : Quad,
      (exec hmd s0 (frame h)).quads = s0.quads ++ [qL, qR] ∧
      qL.texture = some h.left_color_tex ∧ qR.texture = some h.right_color_tex ∧
      qL.framebuffer = 0 ∧ qR.framebuffer = 0 ∧
      (∀ p ∈ trace hmd s0 (frame h), p.2.isQuadCmd = true →
        p.1.viewport = (0, 0, TEST_WIDTH, TEST_HEIGHT) ∧
        p.1.projection = 1 ∧ p.1.modelview = 1) ∧
      qL.verts.map (fun v => v.obj) = [(-1, -1, 0), (0, -1, 0), (0, 1, 0), (-1, 1, 0)] ∧
      qR.verts.map (fun v => v.obj) = [(0, -1, 0), (1, -1, 0), (1, 1, 0), (0, 1, 0)] ∧
      (∀ i j : Int, qL.coversPixel i j = true ↔
        (0 ≤ i ∧ i < TEST_WIDTH / 2 ∧ 0 ≤ j ∧ j < TEST_HEIGHT)) ∧
      (∀ i j : Int, qR.coversPixel i j = true ↔
        (TEST_WIDTH / 2 ≤ i ∧ i < TEST_WIDTH ∧ 0 ≤ j ∧ j < TEST_HEIGHT)) ∧
      qL.verts.map (fun v => (v.tex, v.win)) =
        [ ((0, 0), (0, 0)), ((1, 0), (((TEST_WIDTH / 2 : Int) : ℚ), 0)),
          ((1, 1), (((TEST_WIDTH / 2 : Int) : ℚ), (TEST_HEIGHT : ℚ))),
          ((0, 1), (0, (TEST_HEIGHT : ℚ))) ] ∧
      qR.verts.map (fun v => (v.tex, v.win)) =
        [ ((0, 0), (((TEST_WIDTH / 2 : Int) : ℚ), 0)), ((1, 0), ((TEST_WIDTH : ℚ), 0)),
          ((1, 1), ((TEST_WIDTH : ℚ), (TEST_HEIGHT : ℚ))),
          ((0, 1), (((TEST_WIDTH / 2 : Int) : ℚ), (TEST_HEIGHT : ℚ))) ] := by
  refine ⟨_, _, frame_quads hmd h s0, rfl, rfl, rfl, rfl, ?_, ?_, ?_, ?_, ?_, ?_, ?_⟩
  · intro p hp hq
    obtain ⟨-, h2, h3, h4, -⟩ := frame_quad_state hmd h s0 p hp hq
    exact ⟨h2, h3, h4⟩
  · simp
  · simp
  · intro i j
    have := inside_rect 0 1080 1200 (by norm_num) (by norm_num) i j
    simpa [Quad.coversPixel, TEST_WIDTH, TEST_HEIGHT] using this
  · intro i j
    have := inside_rect 1080 2160 1200 (by norm_num) (by norm_num) i j
    simpa [Quad.coversPixel, TEST_WIDTH, TEST_HEIGHT] using this
  · simp [TEST_WIDTH, TEST_HEIGHT]
  · simp [TEST_WIDTH, TEST_HEIGHT]

theorem view_getElem (tr : List (GLState × Cmd)) (V : List (Nat × Nat × Cmd))
    (hV : tr.map (fun p => (p.1.framebuffer, p.1.program, p.2)) = V) (i : Nat) :
    V[i]? = (tr[i]?).map (fun p => (p.1.framebuffer, p.1.program, p.2)) := by
  rw [← hV, List.getElem?_map]

/-- Positions 11, 24, 39 and 50 of a frame hold a left eye draw, a right eye
draw and the starts of the two quads. -/
theorem frame_landmarks (h : Handles) (pr : Nat) :
    (bindingTrace (0, pr) (frame h))[11]? = some (h.left_fbo, pr, .scene .intf_draw) ∧
    (bindingTrace (0, pr) (frame h))[24]? = some (h.right_fbo, pr, .scene .intf_draw) ∧
    (bindingTrace (0, pr) (frame h))[39]? = some (0, h.shader, .glBegin) ∧
    (bindingTrace (0, pr) (frame h))[50]? = some (0, h.shader, .glBegin) := by
  simp [bindingTrace, bindingStep, frame, sceneState, leftEyePass, rightEyePass, sceneCleanup,
    compositing, orthoSetup, leftQuad, rightQuad, frameEnd]

/-! ## C2: order of the stages of a frame -/

/-- C2: in every iteration of the loop that `main` reaches, with the two
framebuffer names handed out at startup non-zero and distinct, all scene draws
issued while `left_fbo` is bound come strictly before all scene draws issued
while `right_fbo` is bound, and those strictly before every command of the two
compositing quads (such draws and quads exist); while one eye's framebuffer is
bound no command binds the other eye's framebuffer, binds either eye colour
texture or belongs to a quad; and an eye colour texture is bound only with
framebuffer 0 bound and after every scene draw. -/
theorem frame_stage_order (hmd0 : OhmdFloat → Mat4) (hmd : Nat → OhmdFloat → Mat4)
    (env : Env) (s0 : GLState) (st : Started) (out : List Diag)
    (hst : main_startup hmd0 env s0 = .returned st out)
    (hl : env.leftGL.fbo ≠ 0) (hr : env.rightGL.fbo ≠ 0)
    (hlr : env.leftGL.fbo ≠ env.rightGL.fbo) (n : Nat) :
    (∀ i j k,
      sceneDrawAt (trace (hmd n) (loopState hmd st.handles st.gl n) (frame st.handles))
        st.handles.left_fbo i = true →
      sceneDrawAt (trace (hmd n) (loopState hmd st.handles st.gl n) (frame st.handles))
        st.handles.right_fbo j = true →
      quadCmdAt (trace (hmd n) (loopState hmd st.handles st.gl n) (frame st.handles)) k = true →
      i < j ∧ j < k) ∧
    (sceneDrawAt (trace (hmd n) (loopState hmd st.handles st.gl n) (frame st.handles))
        st.handles.left_fbo 11 = true ∧
      sceneDrawAt (trace (hmd n) (loopState hmd st.handles st.gl n) (frame st.handles))
        st.handles.right_fbo 24 = true ∧
      quadCmdAt (trace (hmd n) (loopState hmd st.handles st.gl n) (frame st.handles)) 39 = true ∧
      quadCmdAt (trace (hmd n) (loopState hmd st.handles st.gl n) (frame st.handles)) 50 = true) ∧
    (∀ i,
      framebufferAt (trace (hmd n) (loopState hmd st.handles st.gl n) (frame st.handles)) i
        = some st.handles.left_fbo →
      cmdAt (trace (hmd n) (loopState hmd st.handles st.gl n) (frame st.handles)) i
        ≠ some (.glBindFramebufferEXT st.handles.right_fbo) ∧
      bindTextureAt (trace (hmd n) (loopState hmd st.handles st.gl n) (frame st.handles))
        st.handles.right_color_tex i = false ∧
      bindTextureAt (trace (hmd n) (loopState hmd st.handles st.gl n) (frame st.handles))
        st.handles.left_color_tex i = false ∧
      quadCmdAt (trace (hmd n) (loopState hmd st.handles st.gl n) (frame st.handles)) i = false) ∧
    (∀ i,
      framebufferAt (trace (hmd n) (loopState hmd st.handles st.gl n) (frame st.handles)) i
        = some st.handles.right_fbo →
      cmdAt (trace (hmd n) (loopState hmd st.handles st.gl n) (frame st.handles)) i
        ≠ some (.glBindFramebufferEXT st.handles.left_fbo) ∧
      bindTextureAt (trace (hmd n) (loopState hmd st.handles st.gl n) (frame st.handles))
        st.handles.left_color_tex i = false ∧
      bindTextureAt (trace (hmd n) (loopState hmd st.handles st.gl n) (frame st.handles))
        st.handles.right_color_tex i = false ∧
      quadCmdAt (trace (hmd n) (loopState hmd st.handles st.gl n) (frame st.handles)) i = false) ∧
    (∀ i t, (t = st.handles.left_color_tex ∨ t = st.handles.right_color_tex) →
      bindTextureAt (trace (hmd n) (loopState hmd st.handles st.gl n) (frame st.handles)) t i
        = true →
      framebufferAt (trace (hmd n) (loopState hmd st.handles st.gl n) (frame st.handles)) i
        = some 0 ∧
      ∀ j fbo, sceneDrawAt (trace (hmd n) (loopState hmd st.handles st.gl n) (frame st.handles))
        fbo j = true → j < i) := by
  obtain ⟨-, -, -, -, e5, -, e7, -, hfb, hpr, -⟩ := main_startup_returned hmd0 env s0 st out hst
  rw [← e5] at hl hlr
  rw [← e7] at hr hlr
  generalize st.handles = h at *
  have hb := loop_bindings hmd h st.gl hfb hpr n
  generalize loopState hmd h st.gl n = s at *
  have hV : (trace (hmd n) s (frame h)).map (fun p => (p.1.framebuffer, p.1.program, p.2)) =
      bindingTrace (0, h.shader2) (frame h) := by
    rw [trace_bindings, hb.1, hb.2]
  have get := view_getElem _ _ hV
  generalize trace (hmd n) s (frame h) = tr at *
  have cls := frame_classify h hl hr hlr
  have lm := frame_landmarks h h.shader2
  refine ⟨?_, ?_, ?_, ?_, ?_⟩
  · intro i j k hi hj hk
    unfold sceneDrawAt at hi hj
    unfold quadCmdAt at hk
    cases ei : tr[i]? with
    | none => simp [ei] at hi
    | some pi =>
      cases ej : tr[j]? with
      | none => simp [ej] at hj
      | some pj =>
        cases ek : tr[k]? with
        | none => simp [ek] at hk
        | some pk =>
          simp only [ei, ej, ek, Bool.and_eq_true, beq_iff_eq] at hi hj hk
          have ci := cls i _ _ _ (by rw [get, ei]; rfl)
          have cj := cls j _ _ _ (by rw [get, ej]; rfl)
          have ck := cls k _ _ _ (by rw [get, ek]; rfl)
          have a := ci.1 hi.1 hi.2
          have b := cj.2.1 hj.1 hj.2
          have c := (ck.2.2.2.1 hk).1
          omega
  · have g11 := get 11
    have g24 := get 24
    have g39 := get 39
    have g50 := get 50
    rw [lm.1] at g11
    rw [lm.2.1] at g24
    rw [lm.2.2.1] at g39
    rw [lm.2.2.2] at g50
    unfold sceneDrawAt quadCmdAt
    cases e11 : tr[11]? with
    | none => simp [e11] at g11
    | some p11 =>
      cases e24 : tr[24]? with
      | none => simp [e24] at g24
      | some p24 =>
        cases e39 : tr[39]? with
        | none => simp [e39] at g39
        | some p39 =>
          cases e50 : tr[50]? with
          | none => simp [e50] at g50
          | some p50 =>
            simp only [e11, e24, e39, e50, Option.map_some', Option.some.injEq,
              Prod.mk.injEq] at g11 g24 g39 g50
            simp [← g11.1, ← g11.2.2, ← g24.1, ← g24.2.2, ← g39.2.2, ← g50.2.2,
              Cmd.isSceneDraw, Cmd.isQuadCmd]
  · intro i hi
    unfold framebufferAt at hi
    unfold cmdAt bindTextureAt quadCmdAt
    cases ei : tr[i]? with
    | none => simp [ei] at hi
    | some pi =>
      simp only [ei, Option.map_some', Option.some.injEq] at hi
      have ci := (cls i _ _ _ (by rw [get, ei]; rfl)).2.2.2.2.1 hi
      simp only [Option.map_some', ne_eq, Option.some.injEq, beq_eq_false_iff_ne]
      exact ⟨ci.1, ci.2.1, ci.2.2.1, ci.2.2.2⟩
  · intro i hi
    unfold framebufferAt at hi
    unfold cmdAt bindTextureAt quadCmdAt
    cases ei : tr[i]? with
    | none => simp [ei] at hi
    | some pi =>
      simp only [ei, Option.map_some', Option.some.injEq] at hi
      have ci := (cls i _ _ _ (by rw [get, ei]; rfl)).2.2.2.2.2.1 hi
      simp only [Option.map_some', ne_eq, Option.some.injEq, beq_eq_false_iff_ne]
      exact ⟨ci.1, ci.2.1, ci.2.2.1, ci.2.2.2⟩
  · intro i t ht hi
    unfold bindTextureAt at hi
    unfold framebufferAt
    cases ei : tr[i]? with
    | none => simp [ei] at hi
    | some pi =>
      simp only [ei, beq_iff_eq] at hi
      have ci := (cls i _ _ _ (by rw [get, ei]; rfl)).2.2.2.2.2.2.1
        (by rcases ht with rfl | rfl
            · exact Or.inl hi
            · exact Or.inr hi)
      refine ⟨by simp [ci.1], ?_⟩
      intro j fbo hj
      unfold sceneDrawAt at hj
      cases ej : tr[j]? with
      | none => simp [ej] at hj
      | some pj =>
        simp only [ej, Bool.and_eq_true, beq_iff_eq] at hj
        have cj := cls j _ _ _ (by rw [get, ej]; rfl)
        have hfb := (cj.2.2.1 hj.1).1
        rcases hfb with hf | hf
        · have := cj.1 hj.1 hf
          omega
        · have := cj.2.1 hj.1 hf
          omega

/-- C2 at the run `Env.working` (framebuffer names 1 and 2), second
iteration: the left draw at position 11, the right draw at 24 and the quads
from 39 on are there. -/
theorem frame_stage_order_witness :
    main_startup idDevice Env.working (GLState.fresh TEST_WIDTH TEST_HEIGHT) =
      .returned Started.working [.devices_found 1, .opengl_info] ∧
    Env.working.leftGL.fbo ≠ 0 ∧ Env.working.rightGL.fbo ≠ 0 ∧
    Env.working.leftGL.fbo ≠ Env.working.rightGL.fbo ∧
    (sceneDrawAt (trace idDevice
        (loopState (fun _ => idDevice) Started.working.handles Started.working.gl 1)
        (frame Started.working.handles)) Started.working.handles.left_fbo 11 = true ∧
      sceneDrawAt (trace idDevice
        (loopState (fun _ => idDevice) Started.working.handles Started.working.gl 1)
        (frame Started.working.handles)) Started.working.handles.right_fbo 24 = true ∧
      quadCmdAt (trace idDevice
        (loopState (fun _ => idDevice) Started.working.handles Started.working.gl 1)
        (frame Started.working.handles)) 39 = true ∧
      quadCmdAt (trace idDevice
        (loopState (fun _ => idDevice) Started.working.handles Started.working.gl 1)
        (frame Started.working.handles)) 50 = true) :=
  ⟨working_startup, by decide, by decide, by decide,
   (frame_stage_order idDevice (fun _ => idDevice) Env.working
      (GLState.fresh TEST_WIDTH TEST_HEIGHT) Started.working _ working_startup
      (by decide) (by decide) (by decide) 1).2.1⟩

/-! ## C3: what precedes the scene draws of an eye pass -/

/-- C3: for the handles and targets `main` holds on reaching the loop, and
whatever state an eye pass is entered in, every scene draw of the left pass is
issued with `left_fbo` bound, the viewport `(0, 0, w, h)` for the size
`w x h` the left target was created with (`EYE_WIDTH x EYE_HEIGHT`), colour
and depth cleared since the bind, and the device's left projection and
modelview matrices loaded; the same for the right pass with the right target
and matrices; the draws of a pass are `intf.draw`, `intfScreen.draw`,
`intf.drawPointer`, and each pass ends with framebuffer 0 bound. -/
theorem eye_pass_prepared (hmd0 : OhmdFloat → Mat4) (env : Env) (s0 : GLState)
    (st : Started) (out : List Diag) (hst : main_startup hmd0 env s0 = .returned st out)
    (hmd : OhmdFloat → Mat4) (s : GLState) :
    (∀ p ∈ trace hmd s (leftEyePass st.handles), p.2.isSceneDraw = true →
      p.1.framebuffer = st.left.fbo ∧
      p.1.viewport = (0, 0, st.left.width, st.left.height) ∧
      p.1.colorCleared = true ∧ p.1.depthCleared = true ∧
      p.1.projection = hmd .OHMD_LEFT_EYE_GL_PROJECTION_MATRIX ∧
      p.1.modelview = hmd .OHMD_LEFT_EYE_GL_MODELVIEW_MATRIX) ∧
    ((trace hmd s (leftEyePass st.handles)).map (fun p => p.2)).filter Cmd.isSceneDraw =
      [.scene .intf_draw, .scene .intfScreen_draw, .scene .intf_drawPointer] ∧
    (exec hmd s (leftEyePass st.handles)).framebuffer = 0 ∧
    (∀ p ∈ trace hmd s (rightEyePass st.handles), p.2.isSceneDraw = true →
      p.1.framebuffer = st.right.fbo ∧
      p.1.viewport = (0, 0, st.right.width, st.right.height) ∧
      p.1.colorCleared = true ∧ p.1.depthCleared = true ∧
      p.1.projection = hmd .OHMD_RIGHT_EYE_GL_PROJECTION_MATRIX ∧
      p.1.modelview = hmd .OHMD_RIGHT_EYE_GL_MODELVIEW_MATRIX) ∧
    ((trace hmd s (rightEyePass st.handles)).map (fun p => p.2)).filter Cmd.isSceneDraw =
      [.scene .intf_draw, .scene .intfScreen_draw, .scene .intf_drawPointer] ∧
    (exec hmd s (rightEyePass st.handles)).framebuffer = 0 ∧
    st.left.width = EYE_WIDTH ∧ st.left.height = EYE_HEIGHT ∧
    st.right.width = EYE_WIDTH ∧ st.right.height = EYE_HEIGHT ∧
    frame st.handles = sceneState ++ leftEyePass st.handles ++ rightEyePass st.handles ++
      sceneCleanup ++ compositing st.handles := by
  obtain ⟨e1, e2, -, -, e5, -, e7, -, -, -, -⟩ := main_startup_returned hmd0 env s0 st out hst
  rw [e1, e2]
  rw [← e5, ← e7]
  generalize st.handles = h
  refine ⟨?_, ?_, ?_, ?_, ?_, ?_, rfl, rfl, rfl, rfl, rfl⟩
  · simp [trace, leftEyePass, step, Cmd.isSceneDraw]
  · simp [trace, leftEyePass, Cmd.isSceneDraw]
  · simp [exec, leftEyePass, step]
  · simp [trace, rightEyePass, step, Cmd.isSceneDraw]
  · simp [trace, rightEyePass, Cmd.isSceneDraw]
  · simp [exec, rightEyePass, step]

/-- C3 at the run `Env.working`, the passes entered in the state `main`
reaches the loop in. -/
theorem eye_pass_prepared_witness :
    main_startup idDevice Env.working (GLState.fresh TEST_WIDTH TEST_HEIGHT) =
      .returned Started.working [.devices_found 1, .opengl_info] ∧
    ((trace idDevice Started.working.gl (leftEyePass Started.working.handles)).map
        (fun p => p.2)).filter Cmd.isSceneDraw =
      [.scene .intf_draw, .scene .intfScreen_draw, .scene .intf_drawPointer] ∧
    (exec idDevice Started.working.gl (leftEyePass Started.working.handles)).framebuffer = 0 ∧
    (exec idDevice Started.working.gl (rightEyePass Started.working.handles)).framebuffer = 0 ∧
    Started.working.left.width = EYE_WIDTH ∧ Started.working.left.height = EYE_HEIGHT :=
  have h := eye_pass_prepared idDevice Env.working (GLState.fresh TEST_WIDTH TEST_HEIGHT)
    Started.working _ working_startup idDevice Started.working.gl
  ⟨working_startup, h.2.1, h.2.2.1, h.2.2.2.2.2.1, h.2.2.2.2.2.2.1, h.2.2.2.2.2.2.2.1⟩

/-! ## C5: shader failures are printed, never fatal -/

/-- C5: for every context and every pair of sources, `compile_shader` returns
the name obtained from `glCreateProgram` (it does not leave the process); what
it prints is, in order, the lines for the vertex shader, the fragment shader
and the program, where the line `compile failed` of a shader is there exactly
when that shader's compile status is `GL_FALSE` and the line `link failed`
exactly when the link status is `GL_FALSE`, each with the matching log. -/
theorem compile_shader_reports (gl : ShaderGL) (vertex fragment : String) :
    ∃ dv df dl : List Diag,
      compile_shader gl vertex fragment = .returned gl.programShader (dv ++ df ++ dl) ∧
      (dv = [.compile_failed (gl.shaderInfoLog gl.vertexShader vertex)] ↔
        gl.compileStatus gl.vertexShader vertex = GL_FALSE) ∧
      (dv = [] ↔ gl.compileStatus gl.vertexShader vertex ≠ GL_FALSE) ∧
      (df = [.compile_failed (gl.shaderInfoLog gl.fragmentShader fragment)] ↔
        gl.compileStatus gl.fragmentShader fragment = GL_FALSE) ∧
      (df = [] ↔ gl.compileStatus gl.fragmentShader fragment ≠ GL_FALSE) ∧
      (dl = [.link_failed (gl.programInfoLog gl.programShader)] ↔
        gl.linkStatus gl.programShader = GL_FALSE) ∧
      (dl = [] ↔ gl.linkStatus gl.programShader ≠ GL_FALSE) := by
  refine ⟨compile_shader_src gl gl.vertexShader vertex,
    compile_shader_src gl gl.fragmentShader fragment,
    if gl.linkStatus gl.programShader = GL_FALSE then
      [.link_failed (gl.programInfoLog gl.programShader)] else [], rfl, ?_, ?_, ?_, ?_, ?_, ?_⟩
  · unfold compile_shader_src
    by_cases h : gl.compileStatus gl.vertexShader vertex = GL_FALSE <;> simp [h]
  · unfold compile_shader_src
    by_cases h : gl.compileStatus gl.vertexShader vertex = GL_FALSE <;> simp [h]
  · unfold compile_shader_src
    by_cases h : gl.compileStatus gl.fragmentShader fragment = GL_FALSE <;> simp [h]
  · unfold compile_shader_src
    by_cases h : gl.compileStatus gl.fragmentShader fragment = GL_FALSE <;> simp [h]
  · by_cases h : gl.linkStatus gl.programShader = GL_FALSE <;> simp [h]
  · by_cases h : gl.linkStatus gl.programShader = GL_FALSE <;> simp [h]

/-! ## C4: an incomplete framebuffer -/

theorem Outcome.silent_bind {α β : Type} (o : Outcome α) (f : α → Outcome β) :
    (o.bind f).silent = o.silent.bind (fun a => (f a).silent) := by
  cases o with
  | returned a out =>
      simp only [Outcome.bind, Outcome.silent]
      cases f a <;> rfl
  | exited c out => rfl
  | aborted out => rfl

theorem create_fbo_silent (gl : FboGL) (w h : Int) :
    (create_fbo gl w h).silent =
      .returned { fbo := gl.fbo, color_tex := gl.color_tex, depth_tex := gl.depth_tex,
                  width := w, height := h } [] := by
  simp only [create_fbo]
  split <;> rfl

/-- C4, as stated, fails: with the left framebuffer reported incomplete
(status 0x8CD6), `create_fbo` returns to its caller, `main` reaches the loop
having printed `failed to create fbo 8cd6`, and the first frame binds that
framebuffer (position 8) and draws the scene into it (position 11). -/
theorem incomplete_fbo_is_used :
    Env.leftIncomplete.leftGL.status ≠ GL_FRAMEBUFFER_COMPLETE_EXT ∧
    (create_fbo Env.leftIncomplete.leftGL EYE_WIDTH EYE_HEIGHT).isReturned = true ∧
    main_startup idDevice Env.leftIncomplete (GLState.fresh TEST_WIDTH TEST_HEIGHT) =
      .returned Started.working
        [.devices_found 1, .opengl_info, .failed_to_create_fbo 0x8CD6] ∧
    Started.working.left.fbo = Env.leftIncomplete.leftGL.fbo ∧
    cmdAt (trace idDevice Started.working.gl (frame Started.working.handles)) 8 =
      some (.glBindFramebufferEXT Env.leftIncomplete.leftGL.fbo) ∧
    sceneDrawAt (trace idDevice Started.working.gl (frame Started.working.handles))
      Env.leftIncomplete.leftGL.fbo 11 = true := by
  refine ⟨by decide, rfl, rfl, rfl, ?_, ?_⟩
  · simp [cmdAt, trace, frame, sceneState, leftEyePass, Env.leftIncomplete, Started.working]
  · simp [sceneDrawAt, trace, frame, sceneState, leftEyePass, step, Started.working,
      Env.leftIncomplete, Cmd.isSceneDraw]

/-- C4, amended: for every status the context reports, `create_fbo` returns
the target to its caller; it prints `failed to create fbo` with the status
exactly when the status is not `GL_FRAMEBUFFER_COMPLETE_EXT` and prints nothing
otherwise; and the statuses of the two framebuffers have no effect on whether
`main` reaches the loop, on its exit status, or on what it holds at the loop:
only on what is printed. -/
theorem create_fbo_only_reports (gl : FboGL) (w h : Int) (hmd : OhmdFloat → Mat4) (env : Env)
    (s0 : GLState) (left right : Nat) :
    (∃ out, create_fbo gl w h =
        .returned { fbo := gl.fbo, color_tex := gl.color_tex, depth_tex := gl.depth_tex,
                    width := w, height := h } out ∧
      (out = [.failed_to_create_fbo gl.status] ↔ gl.status ≠ GL_FRAMEBUFFER_COMPLETE_EXT) ∧
      (out = [] ↔ gl.status = GL_FRAMEBUFFER_COMPLETE_EXT)) ∧
    (main_startup hmd (env.withStatus left right) s0).silent = (main_startup hmd env s0).silent := by
  constructor
  · by_cases hs : gl.status = GL_FRAMEBUFFER_COMPLETE_EXT
    · exact ⟨[], by simp [create_fbo, hs], by simp [hs], by simp [hs]⟩
    · exact ⟨[.failed_to_create_fbo gl.status], by simp [create_fbo, hs], by simp [hs],
        by simp [hs]⟩
  · unfold main_startup
    simp only [Env.withStatus, create_fbo_calls, init_gl, read_file]
    split_ifs <;> first | rfl | simp only [Outcome.silent_bind, create_fbo_silent]

/-! ## C10: the size of an eye target -/

/-- C10, as stated, fails: `EYE_WIDTH` is neither `TEST_WIDTH / 2` nor 1080 and
`EYE_HEIGHT` is neither `TEST_HEIGHT` nor 1200. -/
theorem eye_size_is_not_half_output :
    EYE_WIDTH ≠ Int.tdiv TEST_WIDTH 2 ∧ EYE_WIDTH ≠ 1080 ∧
    EYE_HEIGHT ≠ TEST_HEIGHT ∧ EYE_HEIGHT ≠ 1200 := by
  decide

/-- C10, amended: `EYE_WIDTH = TEST_WIDTH / 2 * 2 = 2160` and
`EYE_HEIGHT = TEST_HEIGHT * 2 = 2400` in C integer arithmetic, twice the
1080 x 1200 of one half of the output in each direction, and these are the
dimensions of both eye targets `main` holds when it reaches the loop. -/
theorem eye_size_is_twice_half_output (hmd : OhmdFloat → Mat4) (env : Env) (s0 : GLState)
    (st : Started) (out : List Diag) (hst : main_startup hmd env s0 = .returned st out) :
    EYE_WIDTH = Int.tdiv TEST_WIDTH 2 * 2 ∧ EYE_WIDTH = 2160 ∧
    EYE_WIDTH = 2 * Int.tdiv TEST_WIDTH 2 ∧ Int.tdiv TEST_WIDTH 2 = 1080 ∧
    EYE_HEIGHT = TEST_HEIGHT * 2 ∧ EYE_HEIGHT = 2400 ∧
    st.left.width = EYE_WIDTH ∧ st.left.height = EYE_HEIGHT ∧
    st.right.width = EYE_WIDTH ∧ st.right.height = EYE_HEIGHT := by
  obtain ⟨e1, e2, -⟩ := main_startup_returned hmd env s0 st out hst
  rw [e1, e2]
  exact ⟨rfl, by decide, by decide, by decide, rfl, by decide, rfl, rfl, rfl, rfl⟩

/-- The amended C10 at the run `Env.working`. -/
theorem eye_size_is_twice_half_output_witness :
    main_startup idDevice Env.working (GLState.fresh TEST_WIDTH TEST_HEIGHT) =
      .returned Started.working [.devices_found 1, .opengl_info] ∧
    Started.working.left.width = 2160 ∧ Started.working.left.height = 2400 ∧
    Started.working.right.width = 2160 ∧ Started.working.right.height = 2400 := by
  have h := eye_size_is_twice_half_output idDevice Env.working
    (GLState.fresh TEST_WIDTH TEST_HEIGHT) Started.working _ working_startup
  obtain ⟨-, h2, -, -, -, h6, h7, h8, h9, h10⟩ := h
  exact ⟨working_startup, h7.trans h2, h8.trans h6, h9.trans h2, h10.trans h6⟩

/-! ## C6: `updateTexture` holds the mutex for the whole copy -/

theorem take_set_succ (l : List Nat) (k v : Nat) (h : k < l.length) :
    (l.set k v).take (k + 1) = l.take k ++ [v] := by
  rw [List.set_eq_take_append_cons_drop, if_pos h]
  have hl : (List.take k l).length = k := by simp; omega
  conv_lhs => rw [show k + 1 = (List.take k l).length + 1 by rw [hl]]
  rw [List.take_append]
  simp

theorem take_succ_of_lt (l : List Nat) (k : Nat) (h : k < l.length) :
    l.take (k + 1) = l.take k ++ [l.getD k 0] := by
  rw [List.take_succ, List.getD_eq_getElem l 0 h]
  simp [List.getElem?_eq_getElem h]

theorem start_inv (pattern : Bool → List Nat)
    (hlen : (pattern true).length = (pattern false).length) (first : Bool) :
    UploadInv pattern (Shared.start pattern first) := by
  refine ⟨?_, ?_, ?_, ?_⟩
  · cases first
    · exact hlen.symm
    · rfl
  · cases first
    · exact ⟨Or.inr rfl, by simp [Shared.start]⟩
    · exact ⟨Or.inl rfl, by simp [Shared.start]⟩
  · simp [Shared.start]
  · simp [Shared.start]

theorem updateTexture_step_inv (pattern : Bool → List Nat) (s : Shared)
    (hs : UploadInv pattern s) : UploadInv pattern (updateTexture_step s) := by
  obtain ⟨h1, h2, h3, h4⟩ := hs
  cases hu : s.upload with
  | outside =>
      cases hm : s.mutex with
      | some t =>
          have e : updateTexture_step s = s := by simp only [updateTexture_step, hu, hm]
          rw [e]
          exact ⟨h1, h2, h3, h4⟩
      | none =>
          have e : updateTexture_step s =
              { s with mutex := some .render, upload := .locked } := by
            simp only [updateTexture_step, hu, hm]
          rw [e]
          refine ⟨h1, ?_, ?_, h4⟩
          · cases hw : s.writer with
            | outside next =>
                rw [hw] at h2
                simp only [hw]
                exact ⟨h2.1, by simp⟩
            | writing pat k =>
                rw [hw] at h2
                rw [hm] at h2
                simp at h2
          · simp
  | locked =>
      have e : updateTexture_step s = { s with upload := .bound } := by
        simp only [updateTexture_step, hu]
      rw [e]
      rw [hu] at h3
      exact ⟨h1, h2, by simpa using h3, h4⟩
  | bound =>
      have e : updateTexture_step s = { s with upload := .copying 0, tex := [] } := by
        simp only [updateTexture_step, hu]
      rw [e]
      rw [hu] at h3
      exact ⟨h1, h2, by simpa using h3, h4⟩
  | copying k =>
      rw [hu] at h3
      cases hg : s.imgData[k]? with
      | some v =>
          have e : updateTexture_step s =
              { s with tex := s.tex ++ [v], upload := .copying (k + 1) } := by
            simp only [updateTexture_step, hu, hg]
          rw [e]
          refine ⟨h1, h2, ?_, h4⟩
          simp only
          refine ⟨h3.1, ?_⟩
          rw [List.take_succ, hg, h3.2]
          rfl
      | none =>
          have e : updateTexture_step s =
              { s with upload := .copied, uploads := s.uploads ++ [s.tex] } := by
            simp only [updateTexture_step, hu, hg]
          rw [e]
          refine ⟨h1, h2, ?_, ?_⟩
          · simpa using h3.1
          · intro u hu'
            simp only [List.mem_append, List.mem_singleton] at hu'
            rcases hu' with hu' | hu'
            · exact h4 u hu'
            · have hk : s.imgData.length ≤ k := by
                by_contra hc
                push_neg at hc
                rw [List.getElem?_eq_getElem hc] at hg
                cases hg
              have ht : s.tex = s.imgData := by rw [h3.2, List.take_of_length_le hk]
              cases hw : s.writer with
              | outside next =>
                  rw [hw] at h2
                  rw [hu', ht]
                  exact h2.1
              | writing pat j =>
                  rw [hw] at h2
                  rw [h3.1] at h2
                  simp at h2
  | copied =>
      have e : updateTexture_step s = { s with mutex := none, upload := .outside } := by
        simp only [updateTexture_step, hu]
      rw [e]
      rw [hu] at h3
      refine ⟨h1, ?_, by simp, h4⟩
      cases hw : s.writer with
      | outside next =>
          rw [hw] at h2
          simp only [hw]
          exact ⟨h2.1, by simp⟩
      | writing pat k =>
          rw [hw] at h2
          rw [h3] at h2
          simp at h2

theorem writer_step_inv (pattern : Bool → List Nat)
    (hlen : (pattern true).length = (pattern false).length) (s : Shared)
    (hs : UploadInv pattern s) : UploadInv pattern (writer_step pattern s) := by
  obtain ⟨h1, h2, h3, h4⟩ := hs
  have hpl : ∀ b, (pattern b).length = s.imgData.length := by
    intro b
    cases b
    · rw [← hlen, h1]
    · rw [h1]
  cases hw : s.writer with
  | outside next =>
      cases hm : s.mutex with
      | some t =>
          have e : writer_step pattern s = s := by simp only [writer_step, hw, hm]
          rw [e]
          exact ⟨h1, h2, h3, h4⟩
      | none =>
          have e : writer_step pattern s =
              { s with mutex := some .decode, writer := .writing next 0 } := by
            simp only [writer_step, hw, hm]
          rw [e]
          refine ⟨h1, by simp, ?_, h4⟩
          cases hu : s.upload with
          | outside => simp
          | locked => rw [hu, hm] at h3; simp at h3
          | bound => rw [hu, hm] at h3; simp at h3
          | copying k => rw [hu, hm] at h3; simp at h3
          | copied => rw [hu, hm] at h3; simp at h3
  | writing pat k =>
      rw [hw] at h2
      have hup : s.upload = .outside := by
        cases hu : s.upload with
        | outside => rfl
        | locked => rw [hu, h2.1] at h3; simp at h3
        | bound => rw [hu, h2.1] at h3; simp at h3
        | copying k => rw [hu, h2.1] at h3; simp at h3
        | copied => rw [hu, h2.1] at h3; simp at h3
      by_cases hk : k < s.imgData.length
      · have e : writer_step pattern s =
            { s with imgData := s.imgData.set k ((pattern pat).getD k 0),
                     writer := .writing pat (k + 1) } := by
          simp only [writer_step, hw, hk, if_true]
        rw [e]
        refine ⟨by simp [h1], ?_, ?_, h4⟩
        · simp only
          refine ⟨h2.1, ?_⟩
          rw [take_set_succ _ _ _ hk, take_succ_of_lt (pattern pat) k (by rw [hpl]; exact hk),
            h2.2]
        · simp only [hup]
          rw [h2.1]
          simp
      · have e : writer_step pattern s =
            { s with mutex := none, writer := .outside (!pat) } := by
          simp only [writer_step, hw, hk, if_false]
        rw [e]
        refine ⟨h1, ?_, ?_, h4⟩
        · simp only
          push_neg at hk
          have e1 : s.imgData = pattern pat := by
            have a := h2.2
            rw [List.take_of_length_le hk, List.take_of_length_le (by rw [hpl]; exact hk)] at a
            exact a
          refine ⟨?_, by simp⟩
          cases pat
          · exact Or.inr e1
          · exact Or.inl e1
        · simp [hup]

theorem runThreads_inv (pattern : Bool → List Nat)
    (hlen : (pattern true).length = (pattern false).length) (schedule : List Tid) (s : Shared)
    (hs : UploadInv pattern s) : UploadInv pattern (runThreads pattern s schedule) := by
  induction schedule generalizing s with
  | nil => exact hs
  | cons t ts ih =>
      simp only [runThreads, List.foldl_cons]
      apply ih
      cases t with
      | render => exact updateTexture_step_inv pattern s hs
      | decode => exact writer_step_inv pattern hlen s hs

/-- C6: run `updateTexture`, called over and over, beside a producer that
under the same mutex overwrites the whole buffer with one of two patterns of
equal length, under any schedule of atomic steps, `glTexImage2D` reading the
buffer element by element. Whenever the render thread is inside
`updateTexture` (after the `lock_guard` is constructed, after the bind, during
the copy, and after `glTexImage2D` has returned until the guard is destroyed)
it holds the mutex and the producer is outside its critical section; and every
completed upload is one of the two patterns, never a mixture. -/
theorem upload_never_torn (pattern : Bool → List Nat)
    (hlen : (pattern true).length = (pattern false).length) (first : Bool)
    (schedule : List Tid) :
    ((runThreads pattern (Shared.start pattern first) schedule).upload ≠ .outside →
      (runThreads pattern (Shared.start pattern first) schedule).mutex = some .render) ∧
    ((runThreads pattern (Shared.start pattern first) schedule).upload ≠ .outside →
      ∃ next, (runThreads pattern (Shared.start pattern first) schedule).writer
        = .outside next) ∧
    (∀ u ∈ (runThreads pattern (Shared.start pattern first) schedule).uploads,
      u = pattern true ∨ u = pattern false) := by
  have hinv := runThreads_inv pattern hlen schedule _ (start_inv pattern hlen first)
  generalize runThreads pattern (Shared.start pattern first) schedule = s at hinv
  obtain ⟨-, h2, h3, h4⟩ := hinv
  have hm : s.upload ≠ .outside → s.mutex = some .render := by
    intro hne
    cases hu : s.upload with
    | outside => exact absurd hu hne
    | locked => rw [hu] at h3; exact h3
    | bound => rw [hu] at h3; exact h3
    | copying k => rw [hu] at h3; exact h3.1
    | copied => rw [hu] at h3; exact h3
  refine ⟨hm, ?_, h4⟩
  intro hne
  have hmr := hm hne
  cases hw : s.writer with
  | outside next => exact ⟨next, rfl⟩
  | writing pat k =>
      rw [hw] at h2
      rw [hmr] at h2
      simp at h2

/-- C6 on a buffer of two elements with the patterns `[1, 1]` and `[2, 2]`:
a schedule in which the producer tries to get in during the copy and is
blocked; the two uploads it completes are `[1, 1]` and `[2, 2]`. -/
theorem upload_never_torn_witness :
    (runThreads (fun b => if b then [1, 1] else [2, 2])
      (Shared.start (fun b => if b then [1, 1] else [2, 2]) true)
      [ .render, .decode, .render, .render, .render, .decode, .render, .render, .render,
        .decode, .decode, .render, .decode, .decode,
        .render, .render, .render, .render, .decode, .render, .render ]).uploads
      = [[1, 1], [2, 2]] ∧
    (∀ u ∈ (runThreads (fun b => if b then [1, 1] else [2, 2])
      (Shared.start (fun b => if b then [1, 1] else [2, 2]) true)
      [ .render, .decode, .render, .render, .render, .decode, .render, .render, .render,
        .decode, .decode, .render, .decode, .decode,
        .render, .render, .render, .render, .decode, .render, .render ]).uploads,
      u = [1, 1] ∨ u = [2, 2]) :=
  ⟨by decide,
   (upload_never_torn (fun b => if b then [1, 1] else [2, 2]) (by decide) true _).2.2⟩

/-! ## C7: the screen has the aspect of the video -/

/-- C7: for a video of non-zero width and height, with `ar` the exact
quotient `i_width / i_height`, the size update of a frame gives the screen
surface and the screen widget width 1 and height `1 / ar`, puts the surface at
`(-1/2, -(1/ar)/2, z)` with `z` the depth it had, so that it is centred on
x = 0, y = 0 and its width over its height is `ar`; and for a non-zero
`f_screenAR`, `draw_screen` submits the corners `(-1/2, -h/2)`, `(-1/2, h/2)`,
`(1/2, h/2)`, `(1/2, -h/2)` with `h = 1 / f_screenAR`, all at depth
`f_screenPos`, a rectangle whose width over its height is `f_screenAR`. -/
theorem screen_keeps_aspect (p : Player) (intfScreen : Surface) (screen : Control)
    (texture0 : Nat) (f_screenAR f_screenPos : ℚ)
    (hw : p.i_width ≠ 0) (hh : p.i_height ≠ 0) (har : f_screenAR ≠ 0) :
    (updateScreenSize p intfScreen screen).1.width = 1 ∧
    (updateScreenSize p intfScreen screen).1.height = 1 / ((p.i_width : ℚ) / (p.i_height : ℚ)) ∧
    (updateScreenSize p intfScreen screen).2.width = 1 ∧
    (updateScreenSize p intfScreen screen).2.height = 1 / ((p.i_width : ℚ) / (p.i_height : ℚ)) ∧
    (updateScreenSize p intfScreen screen).1.x = -(1 / 2) ∧
    (updateScreenSize p intfScreen screen).1.y =
      -(1 / ((p.i_width : ℚ) / (p.i_height : ℚ))) / 2 ∧
    (updateScreenSize p intfScreen screen).1.z = intfScreen.z ∧
    (updateScreenSize p intfScreen screen).1.x +
      (updateScreenSize p intfScreen screen).1.width / 2 = 0 ∧
    (updateScreenSize p intfScreen screen).1.y +
      (updateScreenSize p intfScreen screen).1.height / 2 = 0 ∧
    (updateScreenSize p intfScreen screen).1.width /
      (updateScreenSize p intfScreen screen).1.height = (p.i_width : ℚ) / (p.i_height : ℚ) ∧
    (updateScreenSize p intfScreen screen).2.width /
      (updateScreenSize p intfScreen screen).2.height = (p.i_width : ℚ) / (p.i_height : ℚ) ∧
    submitted (draw_screen texture0 f_screenAR f_screenPos) =
      [ (-(1 / 2), -(1 / f_screenAR) / 2, f_screenPos),
        (-(1 / 2), (1 / f_screenAR) / 2, f_screenPos),
        (1 / 2, (1 / f_screenAR) / 2, f_screenPos),
        (1 / 2, -(1 / f_screenAR) / 2, f_screenPos) ] ∧
    ((1 / 2 : ℚ) - -(1 / 2)) / ((1 / f_screenAR) / 2 - -(1 / f_screenAR) / 2) = f_screenAR ∧
    (updateScreenSize p intfScreen screen).1.height ≠ 0 ∧
    (1 / f_screenAR) / 2 - -(1 / f_screenAR) / 2 ≠ 0 := by
  have hw' : (p.i_width : ℚ) ≠ 0 := by exact_mod_cast hw
  have hh' : (p.i_height : ℚ) ≠ 0 := by exact_mod_cast hh
  have e : (1 / f_screenAR) / 2 - -(1 / f_screenAR) / 2 = 1 / f_screenAR := by ring
  refine ⟨rfl, rfl, rfl, rfl, rfl, ?_, rfl, ?_, ?_, ?_, ?_, rfl, ?_, ?_, ?_⟩
  · simp only [updateScreenSize, Surface.setSize, Surface.setPosition, Surface.getPosition]
    ring
  · simp only [updateScreenSize, Surface.setSize, Surface.setPosition, Surface.getPosition]
    norm_num
  · simp only [updateScreenSize, Surface.setSize, Surface.setPosition, Surface.getPosition]
    ring
  · simp only [updateScreenSize, Surface.setSize, Surface.setPosition, Surface.getPosition]
    simp
  · simp only [updateScreenSize, Control.setSize]
    simp
  · rw [e]
    norm_num
  · simp only [updateScreenSize, Surface.setSize, Surface.setPosition, Surface.getPosition]
    exact one_div_ne_zero (div_ne_zero hw' hh')
  · rw [e]
    exact one_div_ne_zero har

/-- C7 at a 1920 x 1080 video and a 16:9 screen. -/
theorem screen_keeps_aspect_witness :
    (updateScreenSize { i_width := 1920, i_height := 1080 }
        { x := -(1 / 2), y := -(1 / 2), z := -2, width := 1, height := 1 }
        { x := 0, y := 0, width := 1, height := 1 }).1
      = { x := -(1 / 2), y := -(9 / 32), z := -2, width := 1, height := 9 / 16 } ∧
    submitted (draw_screen 1 (16 / 9) (-2)) =
      [ (-(1 / 2), -(9 / 32), -2), (-(1 / 2), 9 / 32, -2),
        (1 / 2, 9 / 32, -2), (1 / 2, -(9 / 32), -2) ] := by
  have h := screen_keeps_aspect { i_width := 1920, i_height := 1080 }
    { x := -(1 / 2), y := -(1 / 2), z := -2, width := 1, height := 1 }
    { x := 0, y := 0, width := 1, height := 1 } 1 (16 / 9) (-2)
    (by decide) (by decide) (by norm_num)
  obtain ⟨h1, h2, -, -, h5, h6, h7, -, -, -, -, h12, -, -, -⟩ := h
  constructor
  · generalize updateScreenSize _ _ _ = r at *
    obtain ⟨s, c⟩ := r
    obtain ⟨x, y, z, w, ht⟩ := s
    simp only at h1 h2 h5 h6 h7
    subst h1 h2 h5 h6 h7
    norm_num
  · rw [h12]
    norm_num

/-! ## C8: clicks and pointer focus within an iteration -/

/-- What the event loop writes down, event by event. -/
theorem pollEvents_recorder (events : List Event) (done : Bool) (log : List Act) :
    ∃ pre : List Act,
      (pollEvents recorder (done, log) events).2 = log ++ pre ∧
      Act.intf_pointerFocus ∉ pre ∧ Act.intfScreen_pointerFocus ∉ pre ∧
      pre.count .intf_clickEvent = spacePresses events := by
  induction events generalizing done log with
  | nil => exact ⟨[], by simp [pollEvents], by simp, by simp, by simp [spacePresses]⟩
  | cons e es ih =>
      have hstep : ∃ d a, handleEvent recorder (done, log) e = (d, log ++ a) ∧
          Act.intf_pointerFocus ∉ a ∧ Act.intfScreen_pointerFocus ∉ a ∧
          a.count .intf_clickEvent = if e = .keydown .SDLK_SPACE then 1 else 0 := by
        cases e with
        | other => exact ⟨done, [], by simp [handleEvent], by simp, by simp, by simp⟩
        | keydown k =>
            cases k with
            | SDLK_ESCAPE => exact ⟨true, [], by simp [handleEvent], by simp, by simp, by simp⟩
            | SDLK_F1 =>
                exact ⟨done, [.SDL_WM_ToggleFullScreen], by simp [handleEvent, recorder],
                  by simp, by simp, by simp⟩
            | SDLK_F2 =>
                exact ⟨done, [.ohmd_device_setf .OHMD_ROTATION_QUAT,
                  .ohmd_device_setf .OHMD_POSITION_VECTOR], by simp [handleEvent, recorder],
                  by simp, by simp, by simp⟩
            | SDLK_SPACE =>
                exact ⟨done, [.intf_clickEvent], by simp [handleEvent, recorder],
                  by simp, by simp, by simp⟩
            | other => exact ⟨done, [], by simp [handleEvent], by simp, by simp, by simp⟩
      obtain ⟨d, a, h1, h2, h3, h4⟩ := hstep
      obtain ⟨pre, p1, p2, p3, p4⟩ := ih d (log ++ a)
      refine ⟨a ++ pre, ?_, ?_, ?_, ?_⟩
      · simp only [pollEvents, List.foldl_cons] at p1 ⊢
        rw [h1, p1, List.append_assoc]
      · simp [h2, p2]
      · simp [h3, p3]
      · simp only [List.count_append, h4, p4, spacePresses, List.count_cons]
        by_cases he : e = .keydown .SDLK_SPACE
        · simp [he]; omega
        · have : (e == Event.keydown Key.SDLK_SPACE) = false := by simpa using he
          simp [he, this]

/-- In the modelled interface the event loop leaves focus and lock alone and
delivers every space press to the widget focused when the loop began. -/
theorem pollEvents_ui (hit hitScreen : Nat → Option Nat) (events : List Event) (done : Bool)
    (w : UIWorld) :
    (pollEvents (uiCollab hit hitScreen) (done, w) events).2.focused = w.focused ∧
    (pollEvents (uiCollab hit hitScreen) (done, w) events).2.locked = w.locked ∧
    (pollEvents (uiCollab hit hitScreen) (done, w) events).2.delivered =
      w.delivered ++
        (match w.focused with
          | some x => List.replicate (spacePresses events) x
          | none => []) := by
  induction events generalizing done w with
  | nil => cases hf : w.focused <;> simp [pollEvents, spacePresses, hf]
  | cons e es ih =>
      have hstep : ∃ d w', handleEvent (uiCollab hit hitScreen) (done, w) e = (d, w') ∧
          w'.focused = w.focused ∧ w'.locked = w.locked ∧
          w'.delivered = w.delivered ++
            (match w.focused with
              | some x => if e = .keydown .SDLK_SPACE then [x] else []
              | none => []) := by
        cases e with
        | other => exact ⟨done, w, rfl, rfl, rfl, by cases w.focused <;> simp⟩
        | keydown k =>
            cases k with
            | SDLK_ESCAPE => exact ⟨true, w, rfl, rfl, rfl, by cases w.focused <;> simp⟩
            | SDLK_F1 => exact ⟨_, _, rfl, rfl, rfl, by cases hf : w.focused <;> simp [uiCollab]⟩
            | SDLK_F2 => exact ⟨_, _, rfl, rfl, rfl, by cases hf : w.focused <;> simp [uiCollab]⟩
            | SDLK_SPACE =>
                cases hf : w.focused with
                | none =>
                    exact ⟨done, w, by simp [handleEvent, uiCollab, hf], hf, rfl, by simp⟩
                | some x =>
                    exact ⟨done, { w with delivered := w.delivered ++ [x] },
                      by simp [handleEvent, uiCollab, hf], by simp [hf], rfl, by simp⟩
            | other => exact ⟨done, w, rfl, rfl, rfl, by cases w.focused <;> simp⟩
      obtain ⟨d, w', h1, h2, h3, h4⟩ := hstep
      obtain ⟨i1, i2, i3⟩ := ih d w'
      simp only [pollEvents, List.foldl_cons] at i1 i2 i3 ⊢
      rw [h1]
      refine ⟨i1.trans h2, i2.trans h3, ?_⟩
      rw [i3, h4, h2]
      cases hf : w.focused with
      | none => simp
      | some x =>
          by_cases he : e = .keydown .SDLK_SPACE
          · subst he
            simp [spacePresses, List.replicate_succ]
          · have : (e == Event.keydown Key.SDLK_SPACE) = false := by simpa using he
            simp [spacePresses, he, List.count_cons, this]

/-- C8, as stated, fails: in an iteration with one space press the calls are
`ohmd_ctx_update`, `intf.clickEvent`, `intf.pointerFocus`,
`intfScreen.pointerFocus` in this order; and in the modelled interface, with
the ray of pose `p` hitting widget `p`, a press made in the iteration whose
pose is 2 (focus after the iteration: widget 2) is delivered to widget 1,
focused in the iteration before. -/
theorem click_precedes_focus :
    (interaction recorder [.keydown .SDLK_SPACE] []).2 =
      [.ohmd_ctx_update, .intf_clickEvent, .intf_pointerFocus, .intfScreen_pointerFocus] ∧
    (interaction (uiCollab some (fun _ => none)) []
      { upcoming := [1, 2], pose := 0, focused := none, locked := none,
        screenFocused := none, delivered := [], fullscreen := false }).2 =
      { upcoming := [2], pose := 1, focused := some 1, locked := none,
        screenFocused := none, delivered := [], fullscreen := false } ∧
    (interaction (uiCollab some (fun _ => none)) [.keydown .SDLK_SPACE]
      { upcoming := [2], pose := 1, focused := some 1, locked := none,
        screenFocused := none, delivered := [], fullscreen := false }).2 =
      { upcoming := [], pose := 2, focused := some 2, locked := none,
        screenFocused := none, delivered := [1], fullscreen := false } := by
  decide

/-- C8, amended: in every iteration the calls made are `ohmd_ctx_update`,
then those of the event loop, among them one `intf.clickEvent` for each space
press and no pointer focus call, then `intf.pointerFocus` and
`intfScreen.pointerFocus`; so every click of an iteration is dispatched before
that iteration recomputes focus. In the modelled interface each press is
delivered to the widget that was focused when the iteration began (to none if
there was none), and the focus after the iteration is the locked widget, or
else the widget hit by the ray of the pose the iteration ends with. -/
theorem clicks_precede_pointer_focus (events : List Event) (log : List Act)
    (hit hitScreen : Nat → Option Nat) (w : UIWorld) :
    (∃ pre : List Act,
      (interaction recorder events log).2 =
        log ++ [.ohmd_ctx_update] ++ pre ++ [.intf_pointerFocus, .intfScreen_pointerFocus] ∧
      Act.intf_pointerFocus ∉ pre ∧ Act.intfScreen_pointerFocus ∉ pre ∧
      pre.count .intf_clickEvent = spacePresses events) ∧
    (interaction (uiCollab hit hitScreen) events w).2.delivered =
      w.delivered ++
        (match w.focused with
          | some x => List.replicate (spacePresses events) x
          | none => []) ∧
    (interaction (uiCollab hit hitScreen) events w).2.focused =
      (match w.locked with
        | some l => some l
        | none => hit (interaction (uiCollab hit hitScreen) events w).2.pose) := by
  constructor
  · obtain ⟨pre, h1, h2, h3, h4⟩ := pollEvents_recorder events false (log ++ [.ohmd_ctx_update])
    refine ⟨pre, ?_, h2, h3, h4⟩
    simp only [interaction]
    show recorder.intfScreen_pointerFocus (recorder.intf_pointerFocus
      (pollEvents recorder (false, recorder.ohmd_ctx_update log) events).2) = _
    have : recorder.ohmd_ctx_update log = log ++ [.ohmd_ctx_update] := rfl
    rw [this, h1]
    simp [recorder]
  · have hu : ((uiCollab hit hitScreen).ohmd_ctx_update w).focused = w.focused ∧
        ((uiCollab hit hitScreen).ohmd_ctx_update w).locked = w.locked ∧
        ((uiCollab hit hitScreen).ohmd_ctx_update w).delivered = w.delivered := by
      simp only [uiCollab]
      cases w.upcoming <;> exact ⟨rfl, rfl, rfl⟩
    obtain ⟨p1, p2, p3⟩ := pollEvents_ui hit hitScreen events false
      ((uiCollab hit hitScreen).ohmd_ctx_update w)
    rw [hu.1] at p1 p3
    rw [hu.2.1] at p2
    rw [hu.2.2] at p3
    simp only [interaction]
    generalize (pollEvents (uiCollab hit hitScreen)
      (false, (uiCollab hit hitScreen).ohmd_ctx_update w) events).2 = r at p1 p2 p3
    constructor
    · rw [← p3]
      simp only [uiCollab]
      cases r.locked <;> rfl
    · rw [← p2]
      simp only [uiCollab]
      cases r.locked <;> rfl

/-- The program active at the scene draws, at the quad commands and at the
buffer swap of a frame entered with the program `pr` active. -/
theorem frame_programs (h : Handles) (fb pr : Nat) :
    ∀ q ∈ bindingTrace (fb, pr) (frame h),
      (q.2.2.isSceneDraw = true → q.2.1 = pr) ∧
      (q.2.2.isQuadCmd = true → q.2.1 = h.shader) ∧
      (q.2.2 = .SDL_GL_SwapBuffers → q.2.1 = h.shader2) := by
  simp [bindingTrace, bindingStep, frame, sceneState, leftEyePass, rightEyePass, sceneCleanup,
    compositing, orthoSetup, leftQuad, rightQuad, frameEnd, Cmd.isSceneDraw, Cmd.isQuadCmd]

theorem shaderSetup_uniforms (hmd : OhmdFloat → Mat4) (s0 : GLState) (a b : Nat) (l r : FboGL)
    (w h : Int) :
    (exec hmd (exec hmd (exec hmd s0 (shaderSetup a b)) (create_fbo_calls l w h))
      (create_fbo_calls r w h)).uniforms =
      s0.uniforms ++ [(a, a, "warpTexture", 0), (b, b, "myTexture", 0)] := by
  simp [exec, shaderSetup, create_fbo_calls, step]

/-! ## C9: which program is active at which stage -/

/-- C9: for the state `main` reaches the loop in and every iteration `n`,
the first included: `shader2` is active at the top of the iteration and at
every scene draw of both eye passes, `shader` is active at every command of the
two compositing quads, and `shader2` is active again when the buffers are
swapped and when the iteration ends; startup set the sampler uniform
`warpTexture` of `shader` with `shader` active and `myTexture` of `shader2`
with `shader2` active. -/
theorem program_per_stage (hmd0 : OhmdFloat → Mat4) (hmd : Nat → OhmdFloat → Mat4)
    (env : Env) (s0 : GLState) (st : Started) (out : List Diag)
    (hst : main_startup hmd0 env s0 = .returned st out) (n : Nat) :
    (loopState hmd st.handles st.gl n).program = st.handles.shader2 ∧
    (∀ p ∈ trace (hmd n) (loopState hmd st.handles st.gl n) (frame st.handles),
      (p.2.isSceneDraw = true → p.1.program = st.handles.shader2) ∧
      (p.2.isQuadCmd = true → p.1.program = st.handles.shader) ∧
      (p.2 = .SDL_GL_SwapBuffers → p.1.program = st.handles.shader2)) ∧
    (loopState hmd st.handles st.gl (n + 1)).program = st.handles.shader2 ∧
    st.gl.uniforms = s0.uniforms ++
      [ (st.handles.shader, st.handles.shader, "warpTexture", 0),
        (st.handles.shader2, st.handles.shader2, "myTexture", 0) ] ∧
    (trace (hmd n) (loopState hmd st.handles st.gl n) (frame st.handles)).map (fun p => p.2)
      = frame st.handles := by
  obtain ⟨-, -, e3, e4, -, -, -, -, hfb, hpr, hgl⟩ := main_startup_returned hmd0 env s0 st out hst
  have hu : st.gl.uniforms = s0.uniforms ++
      [ (st.handles.shader, st.handles.shader, "warpTexture", 0),
        (st.handles.shader2, st.handles.shader2, "myTexture", 0) ] := by
    rw [hgl, e3, e4]
    exact shaderSetup_uniforms hmd0 s0 _ _ _ _ _ _
  have hb := loop_bindings hmd st.handles st.gl hfb hpr n
  have hb1 := loop_bindings hmd st.handles st.gl hfb hpr (n + 1)
  refine ⟨hb.2, ?_, hb1.2, hu, ?_⟩
  · intro p hp
    have hmem : (p.1.framebuffer, p.1.program, p.2) ∈
        bindingTrace (0, st.handles.shader2) (frame st.handles) := by
      rw [← hb.1, ← hb.2, ← trace_bindings (hmd n)]
      exact List.mem_map_of_mem _ hp
    exact frame_programs st.handles 0 st.handles.shader2 _ hmem
  · generalize loopState hmd st.handles st.gl n = s
    generalize frame st.handles = cs
    induction cs generalizing s with
    | nil => rfl
    | cons c cs ih => simp [trace, ih]

/-- C9 at the run `Env.working` (`shader` is 3, `shader2` is 6), first and
second iteration. -/
theorem program_per_stage_witness :
    main_startup idDevice Env.working (GLState.fresh TEST_WIDTH TEST_HEIGHT) =
      .returned Started.working [.devices_found 1, .opengl_info] ∧
    (loopState (fun _ => idDevice) Started.working.handles Started.working.gl 0).program = 6 ∧
    (loopState (fun _ => idDevice) Started.working.handles Started.working.gl 1).program = 6 ∧
    Started.working.gl.uniforms = [(3, 3, "warpTexture", 0), (6, 6, "myTexture", 0)] :=
  have h := program_per_stage idDevice (fun _ => idDevice) Env.working
    (GLState.fresh TEST_WIDTH TEST_HEIGHT) Started.working _ working_startup 0
  ⟨working_startup, h.1, h.2.2.1, h.2.2.2.1⟩

end VlcVr
